import Mathlib

/-!
# EventBooker: the capacity-safe booking engine

A shallow embedding of the registration store (`internal/repo/repo.go`) and of the
workflows that drive it (`internal/service/service.go`).

The PostgreSQL tables are two lists of rows, and each repository method is a pure
function from a store to a result together with the store after the transaction.
A transaction that rolls back returns the store it started from.  Timestamps are
natural numbers; `NOW()` is the `now` argument of the operation.  Go `int` and `int64`
values are `Int`.  The store only compares a row count with a capacity; where the
handlers multiply (`Book`) or narrow to 32 bits (`Publish`) the wrap-around is explicit.

Handlers take the failures of their collaborators that the store does not determine
(broker, mail server, a database read that fails) as an input, and return the calls they
made and the lines they logged next to their answer.

The table definitions (`migrations/postgres`) are not part of the sources.  The model
assumes what the queries need and no more: the `id` columns are filled from a sequence
(`nextEventID`, `nextRegID`), and no further constraint rejects a row.
-/

namespace EventBooker

/-! ## Data model (`internal/model/model.go`) -/

/-- Row of the `events` table, `model.Event`. -/
structure Event where
  ID : Int
  Name : String
  Description : String
  StartTime : Nat
  EndTime : Nat
  Location : String
  Capacity : Int
  PaymentTimeoutMinutes : Int
  CreatedAt : Nat
  UpdatedAt : Nat
  deriving DecidableEq, Repr

/-- Row of the `registrations` table, `model.Registration`. -/
structure Registration where
  ID : Int
  EventID : Int
  FullName : String
  Email : String
  Phone : String
  Status : String
  CreatedAt : Nat
  UpdatedAt : Nat
  deriving DecidableEq, Repr

/-- The database: both tables and the two id sequences. -/
structure Store where
  events : List Event
  registrations : List Registration
  nextEventID : Int
  nextRegID : Int
  deriving DecidableEq, Repr

/-- A freshly migrated database: no rows, sequences at 1. -/
def Store.empty : Store :=
  { events := [], registrations := [], nextEventID := 1, nextRegID := 1 }

/-- Errors returned by the repository: the three sentinel values of `repo.go` and the
`fmt.Errorf` wrappers, which carry their message. -/
inductive RepoError where
  | ErrEventNotFound
  | ErrEventFull
  | ErrDuplicateRegistration
  | wrapped (msg : String)
  deriving DecidableEq, Repr

/-- Results of repository calls can be compared. -/
instance instDecidableEqResult {α : Type} [DecidableEq α] : DecidableEq (Except RepoError α)
  | .ok a, .ok b =>
    if h : a = b then isTrue (by rw [h]) else isFalse (fun h' => h (Except.ok.inj h'))
  | .error a, .error b =>
    if h : a = b then isTrue (by rw [h]) else isFalse (fun h' => h (Except.error.inj h'))
  | .ok _, .error _ => isFalse (fun h => by cases h)
  | .error _, .ok _ => isFalse (fun h => by cases h)

/-! ## Queries used by the repository methods -/

/-- Query `SELECT ... FROM events WHERE id = $1`: the row scanned by `QueryRowContext`. -/
def selectEvent (s : Store) (id : Int) : Option Event :=
  s.events.find? (fun e => decide (e.ID = id))

/-- Query `SELECT ... FROM registrations WHERE id = $1`: the row that
`QueryRowContext` scans. -/
def selectRegistration (s : Store) (id : Int) : Option Registration :=
  s.registrations.find? (fun r => decide (r.ID = id))

/-- WHERE clause `event_id = $1 AND status IN ('pending', 'confirmed')`. -/
def isActiveFor (eventID : Int) (r : Registration) : Bool :=
  decide (r.EventID = eventID) && (decide (r.Status = "pending") || decide (r.Status = "confirmed"))

/-- WHERE clause `event_id = $1 AND email = $2 AND status != 'canceled'`. -/
def isDuplicateFor (eventID : Int) (email : String) (r : Registration) : Bool :=
  decide (r.EventID = eventID) && decide (r.Email = email) && !decide (r.Status = "canceled")

/-- WHERE clause `event_id = $1 AND status != 'canceled'`. -/
def isNotCanceledFor (eventID : Int) (r : Registration) : Bool :=
  decide (r.EventID = eventID) && !decide (r.Status = "canceled")

/-- Query `SELECT COUNT(*) ... WHERE event_id = $1 AND status IN ('pending', 'confirmed')`. -/
def countActive (s : Store) (eventID : Int) : Nat :=
  s.registrations.countP (isActiveFor eventID)

/-- Query `SELECT COUNT(*) ... WHERE event_id = $1 AND email = $2 AND status != 'canceled'`. -/
def countExisting (s : Store) (eventID : Int) (email : String) : Nat :=
  s.registrations.countP (isDuplicateFor eventID email)

/-- Statement `UPDATE registrations SET status = $1, updated_at = NOW() WHERE id = $2`,
on one row. -/
def setStatusRow (now : Nat) (id : Int) (newStatus : String) (r : Registration) : Registration :=
  if r.ID = id then { r with Status := newStatus, UpdatedAt := now } else r

/-! ## Repository methods (`internal/repo/repo.go`) -/

/-- Method `CreateEvent`: inserts the event and returns the id given by the sequence.  The
`created_at` and `updated_at` columns are not listed by the INSERT and take the value
the caller put in the struct here (the column defaults are not in the sources). -/
def CreateEvent (s : Store) (e : Event) : Int × Store :=
  (s.nextEventID,
   { s with events := s.events ++ [{ e with ID := s.nextEventID }],
            nextEventID := s.nextEventID + 1 })

/-- Method `GetEventByID`: every scan error is reported as `ErrEventNotFound`. -/
def GetEventByID (s : Store) (id : Int) : Except RepoError Event :=
  match selectEvent s id with
  | some e => .ok e
  | none => .error .ErrEventNotFound

/-- Method `GetRegistrationByID`. -/
def GetRegistrationByID (s : Store) (id : Int) : Except RepoError Registration :=
  match selectRegistration s id with
  | some r => .ok r
  | none => .error (.wrapped "registration not found")

/-- Method `GetRegistrationByRegID`. -/
def GetRegistrationByRegID (s : Store) (regID : Int) : Except RepoError Registration :=
  match selectRegistration s regID with
  | some r => .ok r
  | none => .error (.wrapped "registration not found")

/-- Method `UpdateRegistrationStatusTx`: one UPDATE with `RETURNING id`; when no row has the id
the scan fails and the transaction is rolled back. -/
def UpdateRegistrationStatusTx (s : Store) (now : Nat) (registrationID : Int)
    (newStatus : String) : Except RepoError Unit × Store :=
  if s.registrations.any (fun r => decide (r.ID = registrationID)) then
    (.ok (), { s with registrations :=
                 s.registrations.map (setStatusRow now registrationID newStatus) })
  else
    (.error (.wrapped "failed to update registration status"), s)

/-- Method `BookRegistrationTx`: the admission transaction.  Returns the new registration id and
the event's payment timeout.  The `updated_at` column is not listed by the INSERT; it is
given the insertion instant here (the column default is not in the sources). -/
def BookRegistrationTx (s : Store) (now : Nat) (reg : Registration) :
    Except RepoError (Int × Int) × Store :=
  match selectEvent s reg.EventID with
  | none => (.error .ErrEventNotFound, s)
  | some event =>
    let paymentTimeout := event.PaymentTimeoutMinutes
    let count : Int := (countActive s reg.EventID : Nat)
    if count ≥ event.Capacity then
      (.error .ErrEventFull, s)
    else
      let existing : Int := (countExisting s reg.EventID reg.Email : Nat)
      if existing > 0 then
        (.error .ErrDuplicateRegistration, s)
      else
        let id := s.nextRegID
        let row : Registration :=
          { ID := id, EventID := reg.EventID, FullName := reg.FullName, Email := reg.Email,
            Phone := reg.Phone, Status := "pending", CreatedAt := now, UpdatedAt := now }
        (.ok (id, paymentTimeout),
         { s with registrations := s.registrations ++ [row], nextRegID := s.nextRegID + 1 })

/-- Method `CountRegistrations`. -/
def CountRegistrations (s : Store) (eventID : Int) : Int :=
  (s.registrations.countP (isNotCanceledFor eventID) : Nat)

/-- Method `GetRegistrationsByEventID` (rows are kept in insertion order, which is the order of
`created_at` when the clock does not go backwards). -/
def GetRegistrationsByEventID (s : Store) (eventID : Int) : List Registration :=
  s.registrations.filter (isNotCanceledFor eventID)

/-- Method `CancelIfNotConfirmedTx`: reads the status under a row lock and cancels the
registration unless it is already confirmed or canceled. -/
def CancelIfNotConfirmedTx (s : Store) (now : Nat) (registrationID : Int) :
    Except RepoError Bool × Store :=
  match selectRegistration s registrationID with
  | none => (.error (.wrapped "failed to select registration for cancellation"), s)
  | some cur =>
    if cur.Status = "confirmed" ∨ cur.Status = "canceled" then
      (.ok false, s)
    else
      (.ok true, { s with registrations :=
                     s.registrations.map (setStatusRow now registrationID "canceled") })

/-- The store after a successful admission of `reg` at instant `now`. -/
def admitted (s : Store) (now : Nat) (reg : Registration) : Store :=
  { s with
    registrations := s.registrations ++
      [{ ID := s.nextRegID, EventID := reg.EventID, FullName := reg.FullName,
         Email := reg.Email, Phone := reg.Phone, Status := "pending",
         CreatedAt := now, UpdatedAt := now }],
    nextRegID := s.nextRegID + 1 }

/-- Booking requests served one after the other, each by one `BookRegistrationTx`
transaction at its own instant: the results in order, and the final store. -/
def bookAll (s : Store) :
    List (Nat × Registration) → List (Except RepoError (Int × Int)) × Store
  | [] => ([], s)
  | q :: rest =>
    ((BookRegistrationTx s q.1 q.2).1 :: (bookAll (BookRegistrationTx s q.1 q.2).2 rest).1,
     (bookAll (BookRegistrationTx s q.1 q.2).2 rest).2)

/-- The booking was admitted. -/
def isSuccess : Except RepoError (Int × Int) → Bool
  | .ok _ => true
  | .error _ => false

/-- The booking was rejected with `ErrEventFull`. -/
def isEventFull : Except RepoError (Int × Int) → Bool
  | .error .ErrEventFull => true
  | _ => false

/-! ## Confirmation workflow (`internal/service/service.go`, `internal/dto`) -/

/-- Type `dto.ConfirmRegistrationRequest`, the decoded body of `POST /events/:id/confirm`. -/
structure ConfirmRegistrationRequest where
  EventID : Int
  RegID : Int
  Email : String
  Status : String
  deriving DecidableEq, Repr

/-- Type `dto.RegistrationResponse`. -/
structure RegistrationResponse where
  ID : Int
  EventID : Int
  FullName : String
  Email : String
  CreatedAt : Nat
  Status : String
  UpdatedAt : Nat
  deriving DecidableEq, Repr

/-- What a handler writes with `ctx.JSON`: the HTTP code with either the `dto.Error`
(code and description) or the registration payload. -/
inductive Response where
  | failure (http : Nat) (code : String) (desc : String)
  | registration (http : Nat) (data : RegistrationResponse)
  deriving DecidableEq, Repr

/-- Constant `dto.FieldIncorrect`. -/
def FieldIncorrect : String := "FIELD_INCORRECT"

/-- Constant `dto.ServiceUnavailable`. -/
def ServiceUnavailable : String := "SERVICE_UNAVAILABLE"

/-- Constant `dto.InternalError`. -/
def InternalError : String := "Service is currently unavailable. Please try again later."

/-- Constant `dto.EventNotFound`. -/
def EventNotFound : String := "EVENT_NOT_FOUND"

/-- Constant `dto.RegistrationNotFound`. -/
def RegistrationNotFound : String := "REGISTRATION_NOT_FOUND"

/-- Constant `dto.RegistrationDuplicate`. -/
def RegistrationDuplicate : String := "REGISTRATION_DUPLICATE"

/-- Helper `dto.BadResponseError`. -/
def BadResponseError (code desc : String) : Response := .failure 400 code desc

/-- Helper `dto.InternalServerError`. -/
def InternalServerError : Response := .failure 500 ServiceUnavailable InternalError

/-- Helper `dto.EventNotFoundError`. -/
def EventNotFoundError : Response := BadResponseError EventNotFound "Event not found"

/-- Helper `dto.RegistrationNotFoundError`. -/
def RegistrationNotFoundError : Response :=
  BadResponseError RegistrationNotFound "Registration not found"

/-- Helper `dto.RegistrationDuplicateError`. -/
def RegistrationDuplicateError : Response :=
  BadResponseError RegistrationDuplicate "You have already registered for this event"

/-- First half of `Confirm`, from the event lookup to the last status check: the reads
and precondition checks made before any write.  It returns the response of the branch
that rejects the request, or the event and the registration the handler goes on with.
(The request type carries no validation tag, so `validator.Validate` accepts it.) -/
def ConfirmCheck (s : Store) (eventID : Int) (req : ConfirmRegistrationRequest) :
    Except Response (Event × Registration) :=
  match GetEventByID s eventID with
  | .error _ => .error EventNotFoundError
  | .ok event =>
    match GetRegistrationByRegID s req.RegID with
    | .error _ => .error (BadResponseError FieldIncorrect "Registration not found")
    | .ok reg =>
      if reg.Email ≠ req.Email then
        .error (BadResponseError FieldIncorrect "Wrong email for this registration")
      else if reg.Status = "confirmed" then
        .error (BadResponseError FieldIncorrect "Already confirmed")
      else if reg.Status = "canceled" then
        .error (BadResponseError FieldIncorrect "Registration was canceled")
      else
        .ok (event, reg)

/-- Second half of `Confirm`: the call of `UpdateRegistrationStatusTx` with the id read
by the first half, and the response.  The confirmation e-mail is sent after the write
and its error is only logged, so it does not appear here.  The `UpdatedAt` of the
response is the handler's own clock, taken at the instant of the write; `CreatedAt` is
left at its zero value by the handler. -/
def ConfirmWrite (s : Store) (now : Nat) (eventID : Int) (reg : Registration) :
    Response × Store :=
  match UpdateRegistrationStatusTx s now reg.ID "confirmed" with
  | (.error _, s1) => (InternalServerError, s1)
  | (.ok _, s1) =>
    (.registration 200
       { ID := reg.ID, EventID := eventID, FullName := reg.FullName, Email := reg.Email,
         CreatedAt := 0, Status := "confirmed", UpdatedAt := now },
     s1)

/-- Handler `Confirm` run without interruption: the checks, then the write. -/
def Confirm (s : Store) (now : Nat) (eventID : Int) (req : ConfirmRegistrationRequest) :
    Response × Store :=
  match ConfirmCheck s eventID req with
  | .error resp => (resp, s)
  | .ok (_, reg) => ConfirmWrite s now eventID reg

/-! ## Executions

The HTTP handlers and the expiration worker run concurrently.  Each repository method
is one transaction, so an execution is a sequence of transactions; `Confirm` is not one
transaction: it reads the registration, and writes later.  A `Confirm` request that has
passed its checks and has not written yet is kept in `inflight`. -/

/-- A `Confirm` handler between its checks and its write: the path parameter and the
registration it read. -/
structure PendingConfirm where
  eventID : Int
  reg : Registration
  deriving DecidableEq, Repr

/-- The store and the `Confirm` handlers that are between their checks and their write. -/
structure Sys where
  store : Store
  inflight : List PendingConfirm
  deriving DecidableEq, Repr

/-- The system at start: an empty store and no request under way. -/
def Sys.init : Sys := { store := Store.empty, inflight := [] }

/-- One atomic step of an execution. -/
inductive Step where
  /-- An event is inserted by `CreateEvent`. -/
  | createEvent (e : Event)
  /-- One `BookRegistrationTx` runs for a request. -/
  | book (now : Nat) (reg : Registration)
  /-- One `CancelIfNotConfirmedTx` runs for a registration id. -/
  | cancel (now : Nat) (registrationID : Int)
  /-- A `Confirm` handler makes its reads and checks. -/
  | confirmRead (eventID : Int) (req : ConfirmRegistrationRequest)
  /-- The `Confirm` handler at position `i` of `inflight` makes its write. -/
  | confirmWrite (now : Nat) (i : Nat)
  deriving DecidableEq, Repr

/-- Effect of one step. -/
def step (σ : Sys) : Step → Sys
  | .createEvent e => { σ with store := (CreateEvent σ.store e).2 }
  | .book now reg => { σ with store := (BookRegistrationTx σ.store now reg).2 }
  | .cancel now registrationID =>
    { σ with store := (CancelIfNotConfirmedTx σ.store now registrationID).2 }
  | .confirmRead eventID req =>
    match ConfirmCheck σ.store eventID req with
    | .error _ => σ
    | .ok (_, reg) => { σ with inflight := σ.inflight ++ [{ eventID := eventID, reg := reg }] }
  | .confirmWrite now i =>
    match σ.inflight.get? i with
    | none => σ
    | some c =>
      { store := (ConfirmWrite σ.store now c.eventID c.reg).2,
        inflight := σ.inflight.eraseIdx i }

/-- Effect of a sequence of steps. -/
def run (σ : Sys) (steps : List Step) : Sys := steps.foldl step σ

/-- One step of an execution in which every `Confirm` request runs from its checks to its
write with no other transaction in between. -/
inductive AtomicStep where
  /-- An event is inserted by `CreateEvent`. -/
  | createEvent (e : Event)
  /-- One `BookRegistrationTx` runs for a request. -/
  | book (now : Nat) (reg : Registration)
  /-- One `CancelIfNotConfirmedTx` runs for a registration id. -/
  | cancel (now : Nat) (registrationID : Int)
  /-- One `Confirm` runs as a whole. -/
  | confirm (now : Nat) (eventID : Int) (req : ConfirmRegistrationRequest)
  deriving DecidableEq, Repr

/-- Effect of one uninterrupted step on the store. -/
def atomicStep (s : Store) : AtomicStep → Store
  | .createEvent e => (CreateEvent s e).2
  | .book now reg => (BookRegistrationTx s now reg).2
  | .cancel now registrationID => (CancelIfNotConfirmedTx s now registrationID).2
  | .confirm now eventID req => (Confirm s now eventID req).2

/-- Effect of a sequence of uninterrupted steps. -/
def atomicRun (s : Store) (steps : List AtomicStep) : Store := steps.foldl atomicStep s

/-- Events are created with a positive capacity. -/
def AtomicStep.capacityPositive : AtomicStep → Prop
  | .createEvent e => 0 < e.Capacity
  | _ => True

/-- Events are created with a positive capacity (`validate:"gt=0"` on
`CreateEventRequest.Capacity`, checked by the `CreateEvent` handler). -/
def Step.capacityPositive : Step → Prop
  | .createEvent e => 0 < e.Capacity
  | _ => True

instance (st : Step) : Decidable st.capacityPositive := by
  cases st <;> simp only [Step.capacityPositive] <;> infer_instance

/-- Capacity invariant of one event: at most `Capacity` registrations of the event are
pending or confirmed. -/
def capacityRespected (s : Store) (e : Event) : Prop :=
  (countActive s e.ID : Int) ≤ e.Capacity

/-- Uniqueness invariant for one event and email: at most one registration of the event
with this email has a status other than canceled. -/
def uniqueActive (s : Store) (eventID : Int) (email : String) : Prop :=
  countExisting s eventID email ≤ 1

/-- What holds of every store reached when no `Confirm` is interrupted: statuses are the
three of the state machine, ids are distinct and below their sequence, registrations
belong to events already created, and both invariants of the data model hold. -/
structure WellFormed (s : Store) : Prop where
  status : ∀ r ∈ s.registrations,
    r.Status = "pending" ∨ r.Status = "confirmed" ∨ r.Status = "canceled"
  regIDs : (s.registrations.map (fun r => r.ID)).Nodup
  regFresh : ∀ r ∈ s.registrations, r.ID < s.nextRegID
  eventIDs : (s.events.map (fun e => e.ID)).Nodup
  eventFresh : ∀ e ∈ s.events, e.ID < s.nextEventID
  regEvent : ∀ r ∈ s.registrations, r.EventID < s.nextEventID
  capacity : ∀ e ∈ s.events, capacityRespected s e
  unique : ∀ eventID email, uniqueActive s eventID email

/-! ## Machine integers

`Publish` converts a Go `int` to `int32`, and `Book` multiplies Go `int` values; both
wrap around.  Go `int` is 64 bits wide on the platforms the service is built for. -/

/-- Go `int` arithmetic: the mathematical result reduced to 64 bits, two's complement. -/
def wrap64 (x : Int) : Int := (x + 2 ^ 63) % 2 ^ 64 - 2 ^ 63

/-- Go conversion `int32(x)`: the low 32 bits of `x`, two's complement. -/
def toInt32 (x : Int) : Int := (x + 2 ^ 31) % 2 ^ 32 - 2 ^ 31

/-! ## Expiration scheduler (`internal/rabbit/client.go`) and booking workflow (`Book`) -/

/-- Type `dto.CreateRegistrationRequest`, the decoded and validated body of
`POST /events/:id/book`. -/
structure CreateRegistrationRequest where
  FullName : String
  Email : String
  Phone : String
  deriving DecidableEq, Repr

/-- Type `dto.RegistrationOperateMessage`, the delayed cancellation instruction. -/
structure RegistrationOperateMessage where
  RegistrationID : Int
  EventID : Int
  ExpireAt : Int
  deriving DecidableEq, Repr

/-- What `Publish` hands to `channel.Publish`: the body and the `x-delay` header, absent
when the table of headers is left empty. -/
structure Publishing where
  Body : RegistrationOperateMessage
  xDelay : Option Int
  deriving DecidableEq, Repr

/-- Method `Publish` of the RabbitMQ client: the message it builds.  Whether the channel
accepts it is decided by the broker and is an input of `Book`. -/
def Publish (message : RegistrationOperateMessage) (delaySeconds : Int) : Publishing :=
  { Body := message,
    xDelay := if delaySeconds > 0 then some (toInt32 (wrap64 (delaySeconds * 1000))) else none }

/-- A call made by a handler to one of its collaborators (repository, broker, mailer), with
its arguments. -/
inductive Call where
  | BookRegistrationTx (reg : Registration)
  | CancelIfNotConfirmedTx (registrationID : Int)
  | GetRegistrationByID (id : Int)
  | GetEventByID (id : Int)
  | Publish (p : Publishing)
  | SendRegistrationEmail (eventName status recipientEmail : String) (timeout : Int)
  deriving DecidableEq, Repr

/-- How a handler ends: it writes a response, or it panics on a nil pointer. -/
inductive Outcome where
  | responded (resp : Response)
  | panicked
  deriving DecidableEq, Repr

/-- Result of running a handler: how it ended, the store it leaves, the calls it made in
order, and the messages it logged at error or warning level. -/
structure Handled where
  outcome : Outcome
  store : Store
  calls : List Call
  logs : List String
  deriving DecidableEq, Repr

/-- Failures of the collaborators of `Book` that the store does not determine: the broker
refusing the message, the database failing on the event read that follows the admission,
the mail server refusing the notification. -/
structure BookFaults where
  publishFails : Bool
  eventReadFails : Bool
  mailFails : Bool
  deriving DecidableEq, Repr

/-- The `model.Registration` that `Book` builds from the path parameter and the body. -/
def bookingOf (eventID : Int) (req : CreateRegistrationRequest) : Registration :=
  { ID := 0, EventID := eventID, FullName := req.FullName, Email := req.Email,
    Phone := req.Phone, Status := "pending", CreatedAt := 0, UpdatedAt := 0 }

/-- Handler `Book`, from the construction of the registration on (the path parameter and
the body are already parsed and validated).  `json.Marshal` of the instruction does not
fail.  Instants are counted in nanoseconds where a duration is added.  After the admission
the handler publishes the instruction, reads the event again and sends the e-mail; when the
read fails `event` is nil and the argument `event.Name` of the e-mail call dereferences
it. -/
def Book (s : Store) (now : Nat) (eventID : Int) (req : CreateRegistrationRequest)
    (faults : BookFaults) : Handled :=
  match BookRegistrationTx s now (bookingOf eventID req) with
  | (.error .ErrEventNotFound, s1) =>
    { outcome := .responded EventNotFoundError, store := s1,
      calls := [.BookRegistrationTx (bookingOf eventID req)], logs := [] }
  | (.error .ErrEventFull, s1) =>
    { outcome := .responded (BadResponseError FieldIncorrect "Event is full"), store := s1,
      calls := [.BookRegistrationTx (bookingOf eventID req)], logs := [] }
  | (.error .ErrDuplicateRegistration, s1) =>
    { outcome := .responded RegistrationDuplicateError, store := s1,
      calls := [.BookRegistrationTx (bookingOf eventID req)], logs := [] }
  | (.error (.wrapped _), s1) =>
    { outcome := .responded InternalServerError, store := s1,
      calls := [.BookRegistrationTx (bookingOf eventID req)],
      logs := ["failed to book registration"] }
  | (.ok (id, timeout), s1) =>
    let msg : RegistrationOperateMessage :=
      { RegistrationID := id, EventID := eventID,
        ExpireAt := (now : Int) + wrap64 (timeout * 60000000000) }
    let delaySeconds := wrap64 (timeout * 60)
    let publishLog :=
      if faults.publishFails then ["failed to publish cancel message to RabbitMQ"] else []
    let before : List Call :=
      [.BookRegistrationTx (bookingOf eventID req), .Publish (Publish msg delaySeconds),
       .GetEventByID eventID]
    match (if faults.eventReadFails then .error .ErrEventNotFound else GetEventByID s1 eventID) with
    | .error _ =>
      { outcome := .panicked, store := s1, calls := before,
        logs := publishLog ++ ["Failed to get event from DB in worker"] }
    | .ok event =>
      { outcome := .responded (.registration 201
          { ID := id, EventID := eventID, FullName := req.FullName, Email := req.Email,
            CreatedAt := now, Status := "pending", UpdatedAt := 0 }),
        store := s1,
        calls := before ++
          [.SendRegistrationEmail event.Name "pending" req.Email event.PaymentTimeoutMinutes],
        logs := publishLog ++
          (if faults.mailFails then ["Failed to send notification on e-mail"] else []) }

/-! ## Expiration worker (`internal/consumerWorker/worker.go`) and `Consume` -/

/-- Failures of the collaborators of the worker that the store does not determine: the
cancellation transaction failing (lock timeout, connectivity), the two reads that follow
a cancellation failing, the mail server refusing the notification. -/
structure WorkerFaults where
  cancelFails : Bool
  registrationReadFails : Bool
  eventReadFails : Bool
  mailFails : Bool
  deriving DecidableEq, Repr

/-- Result of the worker's handler: the error it returns, if any, the store it leaves, the
calls it made in order, and the messages it logged at error or warning level. -/
structure HandlerResult where
  err : Option String
  store : Store
  calls : List Call
  logs : List String
  deriving DecidableEq, Repr

/-- The cancellation transaction as the worker sees it: a database failure rolls the
transaction back and returns an error. -/
def cancelTx (faults : WorkerFaults) (s : Store) (now : Nat) (registrationID : Int) :
    Except RepoError Bool × Store :=
  if faults.cancelFails then
    (.error (.wrapped "failed to start transaction"), s)
  else
    CancelIfNotConfirmedTx s now registrationID

/-- The `handler` closure of `Reader.Start`.  The decoder `json.Unmarshal` is a parameter:
`decode body` is the decoded instruction, or `none` when the body does not decode. -/
def handler {Body : Type} (decode : Body → Option RegistrationOperateMessage)
    (faults : WorkerFaults) (s : Store) (now : Nat) (body : Body) : HandlerResult :=
  match decode body with
  | none =>
    { err := some "unmarshal", store := s, calls := [],
      logs := ["Failed to unmarshal message"] }
  | some msg =>
    match cancelTx faults s now msg.RegistrationID with
    | (.error _, s1) =>
      { err := some "cancel", store := s1,
        calls := [.CancelIfNotConfirmedTx msg.RegistrationID],
        logs := ["Failed to cancel registration (DB operation)"] }
    | (.ok false, s1) =>
      { err := none, store := s1, calls := [.CancelIfNotConfirmedTx msg.RegistrationID],
        logs := [] }
    | (.ok true, s1) =>
      match (if faults.registrationReadFails then .error (.wrapped "registration not found")
             else GetRegistrationByID s1 msg.RegistrationID) with
      | .error _ =>
        { err := none, store := s1,
          calls := [.CancelIfNotConfirmedTx msg.RegistrationID,
                    .GetRegistrationByID msg.RegistrationID],
          logs := ["Failed to get registration from DB in worker"] }
      | .ok reg =>
        match (if faults.eventReadFails then .error .ErrEventNotFound
               else GetEventByID s1 reg.EventID) with
        | .error _ =>
          { err := none, store := s1,
            calls := [.CancelIfNotConfirmedTx msg.RegistrationID,
                      .GetRegistrationByID msg.RegistrationID, .GetEventByID reg.EventID],
            logs := ["Failed to get event from DB in worker"] }
        | .ok event =>
          { err := none, store := s1,
            calls := [.CancelIfNotConfirmedTx msg.RegistrationID,
                      .GetRegistrationByID msg.RegistrationID, .GetEventByID reg.EventID,
                      .SendRegistrationEmail event.Name "canceled" reg.Email 0],
            logs := if faults.mailFails then ["Failed to send notification on e-mail"]
                    else [] }

/-- What the consumer tells the broker about a delivery: `d.Ack(multiple)` or
`d.Nack(multiple, requeue)`. -/
inductive Settlement where
  | Ack (multiple : Bool)
  | Nack (multiple : Bool) (requeue : Bool)
  deriving DecidableEq, Repr

/-- Body of the loop of `Consume` for one delivery, given the error returned by the
handler. -/
def settle (err : Option String) : Settlement :=
  match err with
  | some _ => .Nack false true
  | none => .Ack false

/-- The delivery goes back to the queue and will be delivered again. -/
def Settlement.requeued : Settlement → Bool
  | .Nack _ requeue => requeue
  | .Ack _ => false

/-- One delivery consumed: the handler runs, then the delivery is settled. -/
def Consume {Body : Type} (decode : Body → Option RegistrationOperateMessage)
    (faults : WorkerFaults) (s : Store) (now : Nat) (body : Body) :
    Settlement × HandlerResult :=
  (settle (handler decode faults s now body).err, handler decode faults s now body)

/-- The same registration id canceled once per instant of the list, as redeliveries of the
expiration instruction do: the results in order, and the final store. -/
def cancelRepeatedly (s : Store) (registrationID : Int) :
    List Nat → List (Except RepoError Bool) × Store
  | [] => ([], s)
  | now :: rest =>
    ((CancelIfNotConfirmedTx s now registrationID).1 ::
       (cancelRepeatedly (CancelIfNotConfirmedTx s now registrationID).2 registrationID rest).1,
     (cancelRepeatedly (CancelIfNotConfirmedTx s now registrationID).2 registrationID rest).2)

/-! ## Event information (`GetInfo`) -/

/-- Type `dto.EventInfoResponse`. -/
structure EventInfoResponse where
  ID : Int
  Name : String
  Description : String
  StartTime : Nat
  EndTime : Nat
  Location : String
  Capacity : Int
  AvailableSeats : Int
  PaymentTimeoutMinutes : Int
  CreatedAt : Nat
  UpdatedAt : Nat
  Registrations : List RegistrationResponse
  deriving DecidableEq, Repr

/-- The `dto.RegistrationResponse` that `GetInfo` builds for a row of the admin view. -/
def registrationView (r : Registration) : RegistrationResponse :=
  { ID := r.ID, EventID := r.EventID, FullName := r.FullName, Email := r.Email,
    CreatedAt := r.CreatedAt, Status := r.Status, UpdatedAt := r.UpdatedAt }

/-- Handler `GetInfo`, from the event lookup on: the error response, or the payload of the
`200` response.  The subtraction is the one of Go `int`; it stays in range because the
capacity is an `int` and the count is that of the rows of a table. -/
def GetInfo (s : Store) (eventID : Int) (isAdmin : Bool) : Except Response EventInfoResponse :=
  match GetEventByID s eventID with
  | .error _ => .error EventNotFoundError
  | .ok event =>
    let count := CountRegistrations s eventID
    .ok { ID := event.ID, Name := event.Name, Description := event.Description,
          StartTime := event.StartTime, EndTime := event.EndTime, Location := event.Location,
          Capacity := event.Capacity, AvailableSeats := event.Capacity - count,
          PaymentTimeoutMinutes := event.PaymentTimeoutMinutes,
          CreatedAt := event.CreatedAt, UpdatedAt := event.UpdatedAt,
          Registrations :=
            if isAdmin then (GetRegistrationsByEventID s eventID).map registrationView
            else [] }

/-- Every registration has one of the three statuses of the state machine. -/
def StatusesKnown (s : Store) : Prop :=
  ∀ r ∈ s.registrations,
    r.Status = "pending" ∨ r.Status = "confirmed" ∨ r.Status = "canceled"

/-! ## Sample data -/

/-- An event request with the given capacity and a five minute payment timeout. -/
def sampleEvent (capacity : Int) : Event :=
  { ID := 0, Name := "meetup", Description := "", StartTime := 100, EndTime := 200,
    Location := "", Capacity := capacity, PaymentTimeoutMinutes := 5,
    CreatedAt := 0, UpdatedAt := 0 }

/-- A booking request for event 1, as `Book` builds it. -/
def sampleRequest (email : String) : Registration :=
  { ID := 0, EventID := 1, FullName := "Attendee", Email := email, Phone := "100",
    Status := "pending", CreatedAt := 0, UpdatedAt := 0 }

/-- A confirmation request for a registration of event 1. -/
def sampleConfirm (regID : Int) (email : String) : ConfirmRegistrationRequest :=
  { EventID := 1, RegID := regID, Email := email, Status := "" }

/-- Capacity 1.  X books, X's confirmation passes its checks, the expiration worker
cancels X, Y takes the seat, and X's confirmation then makes its write. -/
def overbookingRace : List Step :=
  [ .createEvent (sampleEvent 1),
    .book 10 (sampleRequest "x@mail.io"),
    .confirmRead 1 (sampleConfirm 1 "x@mail.io"),
    .cancel 20 1,
    .book 21 (sampleRequest "y@mail.io"),
    .confirmWrite 22 0 ]

/-- Capacity 2.  X books, X's confirmation passes its checks, the expiration worker
cancels X, X books again, and the first confirmation then makes its write. -/
def duplicateRace : List Step :=
  [ .createEvent (sampleEvent 2),
    .book 10 (sampleRequest "x@mail.io"),
    .confirmRead 1 (sampleConfirm 1 "x@mail.io"),
    .cancel 20 1,
    .book 21 (sampleRequest "x@mail.io"),
    .confirmWrite 22 0 ]

/-- X books, X's confirmation passes its checks, the expiration worker cancels X. -/
def expireDuringConfirm : List Step :=
  [ .createEvent (sampleEvent 1),
    .book 10 (sampleRequest "x@mail.io"),
    .confirmRead 1 (sampleConfirm 1 "x@mail.io"),
    .cancel 20 1 ]

/-- Registration 1 of event 1, booked at instant 10, with the given status. -/
def sampleRow (status : String) : Registration :=
  { ID := 1, EventID := 1, FullName := "Attendee", Email := "x@mail.io", Phone := "100",
    Status := status, CreatedAt := 10, UpdatedAt := 10 }

/-- A store with event 1 (capacity 1) and its single registration, with the given
status. -/
def storeWithStatus (status : String) : Store :=
  { events := [{ sampleEvent 1 with ID := 1 }], registrations := [sampleRow status],
    nextEventID := 2, nextRegID := 2 }

/-- Three booking requests for event 1 with distinct emails. -/
def threeRequests : List (Nat × Registration) :=
  [(10, sampleRequest "a@mail.io"), (11, sampleRequest "b@mail.io"),
   (12, sampleRequest "c@mail.io")]

/-- A store with event 1 of the given capacity and no registration. -/
def storeWithCapacity (capacity : Int) : Store :=
  { events := [{ sampleEvent capacity with ID := 1 }], registrations := [],
    nextEventID := 2, nextRegID := 1 }

/-- A confirmation request for registration 7, which no store of this file holds. -/
def unknownConfirm : ConfirmRegistrationRequest :=
  { EventID := 1, RegID := 7, Email := "x@mail.io", Status := "" }

/-- The body of a booking request by `x@mail.io`. -/
def sampleBooking : CreateRegistrationRequest :=
  { FullName := "Attendee", Email := "x@mail.io", Phone := "100" }

/-- A store with event 1, of capacity 1 and the given payment timeout in minutes, and no
registration. -/
def storeWithTimeout (timeout : Int) : Store :=
  { events := [{ sampleEvent 1 with ID := 1, PaymentTimeoutMinutes := timeout }],
    registrations := [], nextEventID := 2, nextRegID := 1 }

/-- No collaborator of `Book` fails. -/
def noBookFaults : BookFaults :=
  { publishFails := false, eventReadFails := false, mailFails := false }

/-- The `x-delay` headers of the messages a handler handed to `Publish`, in order. -/
def publishedDelays (calls : List Call) : List (Option Int) :=
  calls.filterMap (fun c =>
    match c with
    | .Publish p => some p.xDelay
    | _ => none)

/-- A decoder that accepts no body at all. -/
def rejectAll : String → Option RegistrationOperateMessage := fun _ => none

/-- A decoder that reads every body as the instruction for registration 1 of event 1. -/
def acceptAll : String → Option RegistrationOperateMessage :=
  fun _ => some { RegistrationID := 1, EventID := 1, ExpireAt := 0 }

/-- No collaborator of the worker fails. -/
def noWorkerFaults : WorkerFaults :=
  { cancelFails := false, registrationReadFails := false, eventReadFails := false,
    mailFails := false }

/-- A store with events 1 and 2 (capacity 1 each) and registration 1, pending, which belongs
to event 1. -/
def storeWithTwoEvents : Store :=
  { events := [{ sampleEvent 1 with ID := 1 }, { sampleEvent 1 with ID := 2, Name := "other" }],
    registrations := [sampleRow "pending"], nextEventID := 3, nextRegID := 2 }

/-- Status of the registration with the given id, if there is one. -/
def statusOf (s : Store) (id : Int) : Option String :=
  (selectRegistration s id).map (fun r => r.Status)

end EventBooker

namespace EventBooker

/-! ## Lemmas on the queries -/

theorem selectEvent_eq_none_iff (s : Store) (id : Int) :
    selectEvent s id = none ↔ ∀ e ∈ s.events, e.ID ≠ id := by
  simp [selectEvent, List.find?_eq_none]

theorem selectEvent_some_mem {s : Store} {id : Int} {e : Event}
    (h : selectEvent s id = some e) : e ∈ s.events ∧ e.ID = id := by
  unfold selectEvent at h
  exact ⟨List.mem_of_find?_eq_some h, by simpa using List.find?_some h⟩

theorem selectRegistration_some_mem {s : Store} {id : Int} {r : Registration}
    (h : selectRegistration s id = some r) : r ∈ s.registrations ∧ r.ID = id := by
  unfold selectRegistration at h
  exact ⟨List.mem_of_find?_eq_some h, by simpa using List.find?_some h⟩

theorem countExisting_pos_iff (s : Store) (eventID : Int) (email : String) :
    0 < countExisting s eventID email ↔
      ∃ r ∈ s.registrations, r.EventID = eventID ∧ r.Email = email ∧ r.Status ≠ "canceled" := by
  simp [countExisting, List.countP_pos_iff, isDuplicateFor, and_assoc]

theorem setStatusRow_ID (now : Nat) (id : Int) (st : String) (r : Registration) :
    (setStatusRow now id st r).ID = r.ID := by
  unfold setStatusRow
  split <;> rfl

theorem find_map_setStatusRow (now : Nat) (id : Int) (st : String) (l : List Registration) :
    (l.map (setStatusRow now id st)).find? (fun r => decide (r.ID = id)) =
      (l.find? (fun r => decide (r.ID = id))).map (setStatusRow now id st) := by
  induction l with
  | nil => rfl
  | cons a l ih =>
    simp only [List.map_cons, List.find?_cons, setStatusRow_ID]
    by_cases h : a.ID = id
    · simp [h]
    · simp [h, ih]

/-! ## Admission (`BookRegistrationTx`) -/

theorem BookRegistrationTx_full {s : Store} {e : Event} (now : Nat) {reg : Registration}
    (he : selectEvent s reg.EventID = some e)
    (hfull : (countActive s reg.EventID : Int) ≥ e.Capacity) :
    BookRegistrationTx s now reg = (.error .ErrEventFull, s) := by
  simp [BookRegistrationTx, he, hfull]

theorem BookRegistrationTx_duplicate {s : Store} {e : Event} (now : Nat) {reg : Registration}
    (he : selectEvent s reg.EventID = some e)
    (hroom : (countActive s reg.EventID : Int) < e.Capacity)
    (hdup : 0 < countExisting s reg.EventID reg.Email) :
    BookRegistrationTx s now reg = (.error .ErrDuplicateRegistration, s) := by
  simp [BookRegistrationTx, he, not_le.mpr hroom, hdup]

theorem BookRegistrationTx_admits {s : Store} {e : Event} (now : Nat) {reg : Registration}
    (he : selectEvent s reg.EventID = some e)
    (hroom : (countActive s reg.EventID : Int) < e.Capacity)
    (hnew : countExisting s reg.EventID reg.Email = 0) :
    BookRegistrationTx s now reg =
      (.ok (s.nextRegID, e.PaymentTimeoutMinutes), admitted s now reg) := by
  simp [BookRegistrationTx, he, not_le.mpr hroom, hnew, admitted]

theorem BookRegistrationTx_ok_inv {s : Store} {now : Nat} {reg : Registration}
    {id timeout : Int} {s' : Store}
    (h : BookRegistrationTx s now reg = (.ok (id, timeout), s')) :
    ∃ e, selectEvent s reg.EventID = some e ∧
      (countActive s reg.EventID : Int) < e.Capacity ∧
      countExisting s reg.EventID reg.Email = 0 ∧
      id = s.nextRegID ∧ timeout = e.PaymentTimeoutMinutes ∧ s' = admitted s now reg := by
  unfold BookRegistrationTx at h
  cases he : selectEvent s reg.EventID with
  | none => simp [he] at h
  | some e =>
    simp only [he] at h
    split at h
    · simp at h
    · rename_i hroom
      split at h
      · simp at h
      · rename_i hnew
        simp only [Prod.mk.injEq, Except.ok.injEq] at h
        obtain ⟨⟨hid, ht⟩, hs⟩ := h
        refine ⟨e, rfl, not_le.mp hroom, ?_, hid.symm, ht.symm, hs.symm⟩
        simpa using hnew

/-- C5. Admission decision and atomicity: `BookRegistrationTx` returns `ErrEventNotFound`
when no event has the requested id; otherwise, with `e` the event row it reads,
`ErrEventFull` when the number of pending or confirmed registrations of the event is at
least `e.Capacity`; otherwise `ErrDuplicateRegistration` when some registration of the
event with the same email is not canceled; otherwise it succeeds.  In the three error
cases the store returned is the store given. -/
theorem BookRegistrationTx_decision (s : Store) (now : Nat) (reg : Registration) :
    ((∀ e ∈ s.events, e.ID ≠ reg.EventID) →
      BookRegistrationTx s now reg = (.error .ErrEventNotFound, s)) ∧
    (∀ e, selectEvent s reg.EventID = some e →
      ((countActive s reg.EventID : Int) ≥ e.Capacity →
        BookRegistrationTx s now reg = (.error .ErrEventFull, s)) ∧
      ((countActive s reg.EventID : Int) < e.Capacity →
        (∃ r ∈ s.registrations,
            r.EventID = reg.EventID ∧ r.Email = reg.Email ∧ r.Status ≠ "canceled") →
        BookRegistrationTx s now reg = (.error .ErrDuplicateRegistration, s)) ∧
      ((countActive s reg.EventID : Int) < e.Capacity →
        (¬ ∃ r ∈ s.registrations,
            r.EventID = reg.EventID ∧ r.Email = reg.Email ∧ r.Status ≠ "canceled") →
        ∃ id timeout s', BookRegistrationTx s now reg = (.ok (id, timeout), s'))) := by
  refine ⟨fun h => ?_, fun e he => ⟨fun hfull => ?_, fun hroom hdup => ?_, fun hroom hnodup => ?_⟩⟩
  · have hnone := (selectEvent_eq_none_iff s reg.EventID).mpr h
    simp [BookRegistrationTx, hnone]
  · exact BookRegistrationTx_full now he hfull
  · exact BookRegistrationTx_duplicate now he hroom
      ((countExisting_pos_iff s reg.EventID reg.Email).mpr hdup)
  · have hzero : countExisting s reg.EventID reg.Email = 0 := by
      by_contra hne
      exact hnodup ((countExisting_pos_iff s reg.EventID reg.Email).mp (Nat.pos_of_ne_zero hne))
    exact ⟨_, _, _, BookRegistrationTx_admits now he hroom hzero⟩

/-- C6. Successful admission: when `BookRegistrationTx` succeeds, the registrations of the
new store are those of the old store followed by one new row; the row has the event id,
full name, email and phone of the request and status `pending` (the request's own
`Status` is not read); the events are unchanged; the returned id is the id of the new
row, and the returned timeout is the payment timeout of the event. -/
theorem BookRegistrationTx_success (s : Store) (now : Nat) (reg : Registration)
    (id timeout : Int) (s' : Store)
    (h : BookRegistrationTx s now reg = (.ok (id, timeout), s')) :
    (∃ row : Registration,
      s'.registrations = s.registrations ++ [row] ∧
      row.ID = id ∧ row.EventID = reg.EventID ∧ row.FullName = reg.FullName ∧
      row.Email = reg.Email ∧ row.Phone = reg.Phone ∧ row.Status = "pending") ∧
    s'.events = s.events ∧
    (∃ e, selectEvent s reg.EventID = some e ∧ timeout = e.PaymentTimeoutMinutes) := by
  obtain ⟨e, he, -, -, hid, ht, hs⟩ := BookRegistrationTx_ok_inv h
  subst hs
  exact ⟨⟨_, rfl, hid.symm, rfl, rfl, rfl, rfl, rfl⟩, rfl, e, he, ht⟩

/-- C5 at a full event: event 1 has capacity 1 and one pending registration, and a booking
by another attendee is rejected with `ErrEventFull`, the store being unchanged. -/
theorem BookRegistrationTx_decision_witness :
    BookRegistrationTx (storeWithStatus "pending") 11 (sampleRequest "y@mail.io") =
      (.error .ErrEventFull, storeWithStatus "pending") :=
  ((BookRegistrationTx_decision (storeWithStatus "pending") 11 (sampleRequest "y@mail.io")).2
    { sampleEvent 1 with ID := 1 } (by decide)).1 (by decide)

/-- C6 at a request that arrives with `Status` set to `confirmed`: the booking succeeds
with id 1 and timeout 5, and the row inserted is pending. -/
theorem BookRegistrationTx_success_witness :
    (∃ row : Registration,
      (admitted (storeWithCapacity 1) 10
          { sampleRequest "x@mail.io" with Status := "confirmed" }).registrations =
        (storeWithCapacity 1).registrations ++ [row] ∧
      row.ID = 1 ∧ row.EventID = 1 ∧ row.FullName = "Attendee" ∧
      row.Email = "x@mail.io" ∧ row.Phone = "100" ∧ row.Status = "pending") ∧
    (admitted (storeWithCapacity 1) 10
        { sampleRequest "x@mail.io" with Status := "confirmed" }).events =
      (storeWithCapacity 1).events ∧
    (∃ e, selectEvent (storeWithCapacity 1) 1 = some e ∧ (5 : Int) = e.PaymentTimeoutMinutes) :=
  BookRegistrationTx_success (storeWithCapacity 1) 10
    { sampleRequest "x@mail.io" with Status := "confirmed" } 1 5
    (admitted (storeWithCapacity 1) 10 { sampleRequest "x@mail.io" with Status := "confirmed" })
    (by decide)

theorem countActive_admitted (s : Store) (now : Nat) (reg : Registration) (eventID : Int) :
    countActive (admitted s now reg) eventID =
      countActive s eventID + (if reg.EventID = eventID then 1 else 0) := by
  by_cases h : reg.EventID = eventID <;>
    simp [countActive, admitted, List.countP_append, List.countP_cons, isActiveFor, h]

theorem countExisting_admitted (s : Store) (now : Nat) (reg : Registration) (eventID : Int)
    (email : String) :
    countExisting (admitted s now reg) eventID email =
      countExisting s eventID email +
        (if reg.EventID = eventID ∧ reg.Email = email then 1 else 0) := by
  by_cases h : reg.EventID = eventID <;> by_cases h' : reg.Email = email <;>
    simp [countExisting, admitted, List.countP_append, List.countP_cons, isDuplicateFor, h, h']

/-- C4, as the code decides it.  Let a first `BookRegistrationTx` for an event and an email
succeed with registration id `id`, and let a second one for the same event and email run
on a later store in which the event row is as it was and registration `id` is still there
for that event and email with a status other than canceled.  The second call is rejected
and leaves its store unchanged: with `ErrEventFull` when the event is full at that moment,
and with `ErrDuplicateRegistration` when it is not. -/
theorem second_booking_rejected (s : Store) (now : Nat) (reg : Registration)
    (id timeout : Int) (s₁ : Store)
    (hfirst : BookRegistrationTx s now reg = (.ok (id, timeout), s₁))
    (s₂ : Store) (now₂ : Nat) (reg₂ : Registration)
    (hevents : selectEvent s₂ reg.EventID = selectEvent s₁ reg.EventID)
    (hstill : ∃ r ∈ s₂.registrations,
      r.ID = id ∧ r.EventID = reg.EventID ∧ r.Email = reg.Email ∧ r.Status ≠ "canceled")
    (hevent : reg₂.EventID = reg.EventID) (hemail : reg₂.Email = reg.Email) :
    ∃ e, selectEvent s₂ reg₂.EventID = some e ∧
      ((countActive s₂ reg₂.EventID : Int) ≥ e.Capacity →
        BookRegistrationTx s₂ now₂ reg₂ = (.error .ErrEventFull, s₂)) ∧
      ((countActive s₂ reg₂.EventID : Int) < e.Capacity →
        BookRegistrationTx s₂ now₂ reg₂ = (.error .ErrDuplicateRegistration, s₂)) := by
  obtain ⟨e, he, -, -, -, -, hs⟩ := BookRegistrationTx_ok_inv hfirst
  have he₂ : selectEvent s₂ reg₂.EventID = some e := by
    rw [hevent, hevents, hs]
    exact he
  refine ⟨e, he₂, fun hfull => BookRegistrationTx_full now₂ he₂ hfull, fun hroom => ?_⟩
  refine BookRegistrationTx_duplicate now₂ he₂ hroom ?_
  rw [countExisting_pos_iff, hevent, hemail]
  obtain ⟨r, hr, -, h⟩ := hstill
  exact ⟨r, hr, h⟩

/-- C4 at capacity 2: after `x@mail.io` has booked event 1, a second booking with the same
email on the resulting store is rejected with `ErrDuplicateRegistration`. -/
theorem second_booking_rejected_witness :
    BookRegistrationTx (admitted (storeWithCapacity 2) 10 (sampleRequest "x@mail.io")) 11
        (sampleRequest "x@mail.io") =
      (.error .ErrDuplicateRegistration,
       admitted (storeWithCapacity 2) 10 (sampleRequest "x@mail.io")) := by
  obtain ⟨e, he, -, hroom⟩ :=
    second_booking_rejected (storeWithCapacity 2) 10 (sampleRequest "x@mail.io") 1 5
      (admitted (storeWithCapacity 2) 10 (sampleRequest "x@mail.io")) (by decide)
      (admitted (storeWithCapacity 2) 10 (sampleRequest "x@mail.io")) 11
      (sampleRequest "x@mail.io") rfl (by decide) rfl rfl
  have hsel : selectEvent (admitted (storeWithCapacity 2) 10 (sampleRequest "x@mail.io"))
      (sampleRequest "x@mail.io").EventID = some { sampleEvent 2 with ID := 1 } := by decide
  rw [hsel] at he
  cases he
  exact hroom (by decide)

/-- C4, at capacity 1: the first booking of `x@mail.io` for event 1 succeeds with
registration 1, which is pending, and a second booking for the same event and email right
after it is rejected with `ErrEventFull`, not with `ErrDuplicateRegistration`. -/
theorem second_booking_gets_event_full :
    BookRegistrationTx (storeWithCapacity 1) 10 (sampleRequest "x@mail.io") =
      (.ok (1, 5), admitted (storeWithCapacity 1) 10 (sampleRequest "x@mail.io")) ∧
    statusOf (admitted (storeWithCapacity 1) 10 (sampleRequest "x@mail.io")) 1 =
      some "pending" ∧
    (BookRegistrationTx (admitted (storeWithCapacity 1) 10 (sampleRequest "x@mail.io")) 11
        (sampleRequest "x@mail.io")).1 = .error .ErrEventFull ∧
    (BookRegistrationTx (admitted (storeWithCapacity 1) 10 (sampleRequest "x@mail.io")) 11
        (sampleRequest "x@mail.io")).1 ≠ .error .ErrDuplicateRegistration := by
  decide

/-! ## No overbooking -/

theorem bookAll_counts (eventID : Int) (e : Event) (C : Nat) (hcap : e.Capacity = (C : Int)) :
    ∀ (reqs : List (Nat × Registration)) (s : Store),
      selectEvent s eventID = some e →
      countActive s eventID ≤ C →
      (∀ q ∈ reqs, q.2.EventID = eventID) →
      (reqs.map (fun q => q.2.Email)).Nodup →
      (∀ q ∈ reqs, countExisting s eventID q.2.Email = 0) →
      (bookAll s reqs).1.countP isSuccess = min (C - countActive s eventID) reqs.length ∧
      (bookAll s reqs).1.countP isEventFull =
        reqs.length - min (C - countActive s eventID) reqs.length ∧
      countActive (bookAll s reqs).2 eventID =
        countActive s eventID + min (C - countActive s eventID) reqs.length := by
  intro reqs
  induction reqs with
  | nil =>
    intro s _ _ _ _ _
    simp [bookAll]
  | cons q rest ih =>
    intro s he hle hreq hnd hnew
    have hq : q.2.EventID = eventID := hreq q (List.mem_cons_self _ _)
    have hrest : ∀ q' ∈ rest, q'.2.EventID = eventID :=
      fun q' h => hreq q' (List.mem_cons_of_mem _ h)
    simp only [List.map_cons, List.nodup_cons] at hnd
    obtain ⟨hfresh, hnd'⟩ := hnd
    have heq : selectEvent s q.2.EventID = some e := by rw [hq]; exact he
    by_cases hroom : countActive s eventID < C
    · have hroom' : (countActive s q.2.EventID : Int) < e.Capacity := by
        rw [hq, hcap]; exact_mod_cast hroom
      have hz : countExisting s q.2.EventID q.2.Email = 0 := by
        rw [hq]; exact hnew q (List.mem_cons_self _ _)
      have hb := BookRegistrationTx_admits q.1 heq hroom' hz
      have hcount : countActive (admitted s q.1 q.2) eventID = countActive s eventID + 1 := by
        rw [countActive_admitted, if_pos hq]
      have hnew' : ∀ q' ∈ rest, countExisting (admitted s q.1 q.2) eventID q'.2.Email = 0 := by
        intro q' hq'
        have hne : q.2.Email ≠ q'.2.Email := fun h =>
          hfresh (List.mem_map.mpr ⟨q', hq', h.symm⟩)
        rw [countExisting_admitted, hnew q' (List.mem_cons_of_mem _ hq')]
        simp [hne]
      obtain ⟨h1, h2, h3⟩ := ih (admitted s q.1 q.2) he (by omega) hrest hnd' hnew'
      rw [hcount] at h1 h2 h3
      simp only [bookAll, hb, List.countP_cons, isSuccess, isEventFull, List.length_cons]
      rw [h1, h2, h3]
      generalize countActive s eventID = n at hroom
      generalize rest.length = m
      simp only [if_true, Bool.false_eq_true, if_false]
      omega
    · have hfull : (countActive s q.2.EventID : Int) ≥ e.Capacity := by
        rw [hq, hcap]; exact_mod_cast (not_lt.mp hroom)
      have hb := BookRegistrationTx_full q.1 heq hfull
      obtain ⟨h1, h2, h3⟩ := ih s he hle hrest hnd'
        (fun q' hq' => hnew q' (List.mem_cons_of_mem _ hq'))
      simp only [bookAll, hb, List.countP_cons, isSuccess, isEventFull, List.length_cons]
      rw [h1, h2, h3]
      have h0 : C - countActive s eventID = 0 := by omega
      simp [h0]

/-- C2. No overbooking: for an event of capacity `C` that has no registration, `C + k`
calls of `BookRegistrationTx` for that event with pairwise distinct emails, served one
after the other in any order, give exactly `C` successes and exactly `k` results
`ErrEventFull`, and the event then has exactly `C` pending or confirmed registrations. -/
theorem no_overbooking (s : Store) (eventID : Int) (e : Event) (C k : Nat)
    (reqs : List (Nat × Registration))
    (he : selectEvent s eventID = some e) (hcap : e.Capacity = (C : Int))
    (hC : 0 < C) (hk : 0 < k)
    (hnone : ∀ r ∈ s.registrations, r.EventID ≠ eventID)
    (hlen : reqs.length = C + k)
    (hreq : ∀ q ∈ reqs, q.2.EventID = eventID)
    (hdistinct : (reqs.map (fun q => q.2.Email)).Nodup) :
    (bookAll s reqs).1.countP isSuccess = C ∧
    (bookAll s reqs).1.countP isEventFull = k ∧
    countActive (bookAll s reqs).2 eventID = C := by
  have hzero : countActive s eventID = 0 := by
    simp only [countActive, List.countP_eq_zero]
    intro r hr
    simp [isActiveFor, hnone r hr]
  have hnew : ∀ q ∈ reqs, countExisting s eventID q.2.Email = 0 := by
    intro q _
    simp only [countExisting, List.countP_eq_zero]
    intro r hr
    simp [isDuplicateFor, hnone r hr]
  obtain ⟨h1, h2, h3⟩ :=
    bookAll_counts eventID e C hcap reqs s he (by omega) hreq hdistinct hnew
  rw [hzero, hlen] at h1 h2 h3
  have hmin : min (C - 0) (C + k) = C := by simp
  rw [hmin] at h1 h2 h3
  exact ⟨h1, by omega, by omega⟩

/-- C2 at capacity 2 with three requests: two successes, one `ErrEventFull`, two seats
taken. -/
theorem no_overbooking_witness :
    (bookAll (storeWithCapacity 2) threeRequests).1.countP isSuccess = 2 ∧
    (bookAll (storeWithCapacity 2) threeRequests).1.countP isEventFull = 1 ∧
    countActive (bookAll (storeWithCapacity 2) threeRequests).2 1 = 2 :=
  no_overbooking (storeWithCapacity 2) 1 { sampleEvent 2 with ID := 1 } 2 1 threeRequests
    (by decide) (by decide) (by decide) (by decide) (by decide) (by decide) (by decide)
    (by decide)

/-! ## Expiration (`CancelIfNotConfirmedTx`) -/

theorem selectRegistration_after_setStatus (s : Store) (now : Nat) (id : Int) (st : String) :
    selectRegistration
        { s with registrations := s.registrations.map (setStatusRow now id st) } id =
      (selectRegistration s id).map (setStatusRow now id st) := by
  simp only [selectRegistration]
  exact find_map_setStatusRow now id st s.registrations

theorem CancelIfNotConfirmedTx_terminal {s : Store} (now : Nat) {id : Int}
    {cur : Registration} (hcur : selectRegistration s id = some cur)
    (hst : cur.Status = "confirmed" ∨ cur.Status = "canceled") :
    CancelIfNotConfirmedTx s now id = (.ok false, s) := by
  simp [CancelIfNotConfirmedTx, hcur, hst]

theorem CancelIfNotConfirmedTx_cancels {s : Store} (now : Nat) {id : Int}
    {cur : Registration} (hcur : selectRegistration s id = some cur)
    (hst : ¬ (cur.Status = "confirmed" ∨ cur.Status = "canceled")) :
    CancelIfNotConfirmedTx s now id =
      (.ok true,
       { s with registrations := s.registrations.map (setStatusRow now id "canceled") }) := by
  simp [CancelIfNotConfirmedTx, hcur, hst]

/-- C7. Contract of `CancelIfNotConfirmedTx` for an existing registration id, `cur` being
the row the transaction reads.  When `cur` is confirmed or canceled the call returns
`false` and the store is unchanged.  When `cur` is pending the call returns `true`; in the
new store the registration read for the id is canceled; events and sequences are
unchanged; the registrations table has the same rows at the same positions, where a row
with another id is unchanged and a row with this id has status `canceled`, `updated_at`
set to the instant of the call, and every other field unchanged. -/
theorem CancelIfNotConfirmedTx_contract (s : Store) (now : Nat) (id : Int)
    (cur : Registration) (hcur : selectRegistration s id = some cur) :
    ((cur.Status = "confirmed" ∨ cur.Status = "canceled") →
      CancelIfNotConfirmedTx s now id = (.ok false, s)) ∧
    (cur.Status = "pending" →
      (CancelIfNotConfirmedTx s now id).1 = .ok true ∧
      statusOf (CancelIfNotConfirmedTx s now id).2 id = some "canceled" ∧
      (CancelIfNotConfirmedTx s now id).2.events = s.events ∧
      (CancelIfNotConfirmedTx s now id).2.nextEventID = s.nextEventID ∧
      (CancelIfNotConfirmedTx s now id).2.nextRegID = s.nextRegID ∧
      (CancelIfNotConfirmedTx s now id).2.registrations.length = s.registrations.length ∧
      ∀ (i : Nat) (r : Registration), s.registrations[i]? = some r →
        ∃ r', (CancelIfNotConfirmedTx s now id).2.registrations[i]? = some r' ∧
          (r.ID ≠ id → r' = r) ∧
          (r.ID = id → r'.Status = "canceled" ∧ r'.UpdatedAt = now) ∧
          r'.ID = r.ID ∧ r'.EventID = r.EventID ∧ r'.FullName = r.FullName ∧
          r'.Email = r.Email ∧ r'.Phone = r.Phone ∧ r'.CreatedAt = r.CreatedAt) := by
  refine ⟨fun hst => CancelIfNotConfirmedTx_terminal now hcur hst, fun hp => ?_⟩
  have hst : ¬ (cur.Status = "confirmed" ∨ cur.Status = "canceled") := by
    rw [hp]; decide
  rw [CancelIfNotConfirmedTx_cancels now hcur hst]
  refine ⟨rfl, ?_, rfl, rfl, rfl, by simp, ?_⟩
  · have hid : cur.ID = id := (selectRegistration_some_mem hcur).2
    simp [statusOf, selectRegistration_after_setStatus, hcur, setStatusRow, hid]
  · intro i r hr
    refine ⟨setStatusRow now id "canceled" r, by simp [hr], ?_⟩
    unfold setStatusRow
    by_cases h : r.ID = id <;> simp [h]

/-- C8. Idempotent expiration: for an existing registration id, a second call of
`CancelIfNotConfirmedTx` right after a first one returns `false` and leaves the store of
the first call unchanged; when the registration was pending, the first call returns
`true`. -/
theorem CancelIfNotConfirmedTx_idempotent (s : Store) (now₁ now₂ : Nat) (id : Int)
    (cur : Registration) (hcur : selectRegistration s id = some cur) :
    CancelIfNotConfirmedTx (CancelIfNotConfirmedTx s now₁ id).2 now₂ id =
        (.ok false, (CancelIfNotConfirmedTx s now₁ id).2) ∧
    (cur.Status = "pending" →
      (CancelIfNotConfirmedTx s now₁ id).1 = .ok true ∧
      statusOf (CancelIfNotConfirmedTx s now₁ id).2 id = some "canceled") := by
  have hid : cur.ID = id := (selectRegistration_some_mem hcur).2
  by_cases hst : cur.Status = "confirmed" ∨ cur.Status = "canceled"
  · rw [CancelIfNotConfirmedTx_terminal now₁ hcur hst]
    refine ⟨CancelIfNotConfirmedTx_terminal now₂ hcur hst, fun hp => ?_⟩
    rw [hp] at hst
    exact absurd hst (by decide)
  · rw [CancelIfNotConfirmedTx_cancels now₁ hcur hst]
    have hsel := selectRegistration_after_setStatus s now₁ id "canceled"
    rw [hcur] at hsel
    refine ⟨?_, fun _ => ⟨rfl, ?_⟩⟩
    · refine CancelIfNotConfirmedTx_terminal now₂ hsel (Or.inr ?_)
      simp [setStatusRow, hid]
    · simp [statusOf, hsel, setStatusRow, hid]

/-- C7 at a pending registration: the call returns `true` and the registration is
canceled; at a confirmed registration: the call returns `false` and the store is
unchanged. -/
theorem CancelIfNotConfirmedTx_contract_witness :
    ((CancelIfNotConfirmedTx (storeWithStatus "pending") 20 1).1 = .ok true ∧
      statusOf (CancelIfNotConfirmedTx (storeWithStatus "pending") 20 1).2 1 =
        some "canceled") ∧
    CancelIfNotConfirmedTx (storeWithStatus "confirmed") 20 1 =
      (.ok false, storeWithStatus "confirmed") :=
  ⟨⟨((CancelIfNotConfirmedTx_contract (storeWithStatus "pending") 20 1 (sampleRow "pending")
        (by decide)).2 (by decide)).1,
    ((CancelIfNotConfirmedTx_contract (storeWithStatus "pending") 20 1 (sampleRow "pending")
        (by decide)).2 (by decide)).2.1⟩,
   (CancelIfNotConfirmedTx_contract (storeWithStatus "confirmed") 20 1 (sampleRow "confirmed")
      (by decide)).1 (by decide)⟩

/-- C8 at a pending registration: the first call returns `true`, the second one returns
`false` and gives back the store of the first. -/
theorem CancelIfNotConfirmedTx_idempotent_witness :
    CancelIfNotConfirmedTx (CancelIfNotConfirmedTx (storeWithStatus "pending") 20 1).2 25 1 =
        (.ok false, (CancelIfNotConfirmedTx (storeWithStatus "pending") 20 1).2) ∧
    (CancelIfNotConfirmedTx (storeWithStatus "pending") 20 1).1 = .ok true :=
  ⟨(CancelIfNotConfirmedTx_idempotent (storeWithStatus "pending") 20 25 1 (sampleRow "pending")
      (by decide)).1,
   ((CancelIfNotConfirmedTx_idempotent (storeWithStatus "pending") 20 25 1 (sampleRow "pending")
      (by decide)).2 (by decide)).1⟩

/-! ## Confirmation (`UpdateRegistrationStatusTx`, `Confirm`) -/

theorem any_ID_of_selectRegistration {s : Store} {id : Int} {cur : Registration}
    (hcur : selectRegistration s id = some cur) :
    s.registrations.any (fun r => decide (r.ID = id)) = true := by
  have h := selectRegistration_some_mem hcur
  simp only [List.any_eq_true, decide_eq_true_eq]
  exact ⟨cur, h.1, h.2⟩

/-- C9. `UpdateRegistrationStatusTx` does not look at the current status: for an existing
registration id it succeeds and the registration read for the id afterwards has the new
status, whatever the status was before.  In particular a canceled registration becomes
confirmed. -/
theorem UpdateRegistrationStatusTx_unconditional (s : Store) (now : Nat) (id : Int)
    (newStatus : String) (cur : Registration) (hcur : selectRegistration s id = some cur) :
    (UpdateRegistrationStatusTx s now id newStatus).1 = .ok () ∧
    statusOf (UpdateRegistrationStatusTx s now id newStatus).2 id = some newStatus := by
  have hid : cur.ID = id := (selectRegistration_some_mem hcur).2
  have hany := any_ID_of_selectRegistration hcur
  unfold UpdateRegistrationStatusTx
  rw [if_pos hany]
  refine ⟨rfl, ?_⟩
  simp [statusOf, selectRegistration_after_setStatus, hcur, setStatusRow, hid]

/-- C9, at a canceled registration: the status read before the call is `canceled`, the
call succeeds, and the status read after it is `confirmed`. -/
theorem UpdateRegistrationStatusTx_confirms_canceled :
    statusOf (storeWithStatus "canceled") 1 = some "canceled" ∧
    (UpdateRegistrationStatusTx (storeWithStatus "canceled") 30 1 "confirmed").1 = .ok () ∧
    statusOf (UpdateRegistrationStatusTx (storeWithStatus "canceled") 30 1 "confirmed").2 1 =
      some "confirmed" :=
  ⟨by decide,
   UpdateRegistrationStatusTx_unconditional (storeWithStatus "canceled") 30 1 "confirmed"
     (sampleRow "canceled") (by decide)⟩

/-! ## Executions in which `Confirm` is interrupted between its checks and its write -/

/-- C10. An execution in which a canceled registration becomes confirmed.  After
`expireDuringConfirm` registration 1 is canceled and its `Confirm` handler, which read it
while it was pending, is still to write; the write then succeeds with a `200` response
and the registration is confirmed. -/
theorem canceled_becomes_confirmed :
    statusOf (run Sys.init expireDuringConfirm).store 1 = some "canceled" ∧
    (run Sys.init expireDuringConfirm).inflight.map (fun c => (c.reg.ID, c.reg.Status)) =
      [(1, "pending")] ∧
    statusOf (step (run Sys.init expireDuringConfirm) (.confirmWrite 22 0)).store 1 =
      some "confirmed" := by
  decide

/-- C1. An execution that breaks the capacity invariant.  Every event of
`overbookingRace` is created with a positive capacity; at the end event 1, of capacity 1,
has two registrations that are pending or confirmed (registration 1 confirmed,
registration 2 pending). -/
theorem capacity_exceeded_after_race :
    (∀ st ∈ overbookingRace, st.capacityPositive) ∧
    (run Sys.init overbookingRace).store.events.map (fun e => (e.ID, e.Capacity)) = [(1, 1)] ∧
    (run Sys.init overbookingRace).store.registrations.map
        (fun r => (r.ID, r.EventID, r.Status)) = [(1, 1, "confirmed"), (2, 1, "pending")] ∧
    countActive (run Sys.init overbookingRace).store 1 = 2 ∧
    ¬ capacityRespected (run Sys.init overbookingRace).store { sampleEvent 1 with ID := 1 } := by
  unfold capacityRespected
  decide

/-- C3. An execution that breaks the uniqueness invariant: at the end of `duplicateRace`
event 1 has two registrations with the email `x@mail.io` whose status is not canceled
(registration 1 confirmed, registration 2 pending). -/
theorem duplicate_active_after_race :
    (run Sys.init duplicateRace).store.registrations.map
        (fun r => (r.ID, r.EventID, r.Email, r.Status)) =
      [(1, 1, "x@mail.io", "confirmed"), (2, 1, "x@mail.io", "pending")] ∧
    countExisting (run Sys.init duplicateRace).store 1 "x@mail.io" = 2 ∧
    ¬ uniqueActive (run Sys.init duplicateRace).store 1 "x@mail.io" := by
  unfold uniqueActive
  decide

/-! ## Executions in which `Confirm` is not interrupted

When the checks and the write of every `Confirm` are one step, both invariants of the
data model hold in every reachable store.  The executions above differ from these only
by the steps that come between the read and the write of a `Confirm`. -/

theorem WellFormed_empty : WellFormed Store.empty where
  status := by simp [Store.empty]
  regIDs := by simp [Store.empty]
  regFresh := by simp [Store.empty]
  eventIDs := by simp [Store.empty]
  eventFresh := by simp [Store.empty]
  regEvent := by simp [Store.empty]
  capacity := by simp [Store.empty]
  unique := by simp [Store.empty, uniqueActive, countExisting]

theorem countActive_eq_zero_of_fresh {s : Store} {eventID : Int}
    (h : ∀ r ∈ s.registrations, r.EventID < eventID) : countActive s eventID = 0 := by
  simp only [countActive, List.countP_eq_zero]
  intro r hr
  have := h r hr
  have hne : r.EventID ≠ eventID := by omega
  simp [isActiveFor, hne]

theorem WellFormed_CreateEvent {s : Store} (hs : WellFormed s) (e : Event)
    (hcap : 0 < e.Capacity) : WellFormed (CreateEvent s e).2 where
  status := hs.status
  regIDs := hs.regIDs
  regFresh := hs.regFresh
  eventIDs := by
    simp only [CreateEvent, List.map_append, List.map_cons, List.map_nil]
    refine List.Nodup.append hs.eventIDs (List.nodup_singleton _) ?_
    simp only [List.disjoint_singleton, List.mem_map, not_exists, not_and]
    intro x hx hxe
    have := hs.eventFresh x hx
    omega
  eventFresh := by
    intro x hx
    simp only [CreateEvent, List.mem_append, List.mem_singleton] at hx ⊢
    rcases hx with hx | hx
    · have := hs.eventFresh x hx
      omega
    · subst hx
      simp
  regEvent := by
    intro r hr
    have := hs.regEvent r hr
    simp only [CreateEvent]
    omega
  capacity := by
    intro x hx
    simp only [CreateEvent, List.mem_append, List.mem_singleton] at hx
    rcases hx with hx | hx
    · exact hs.capacity x hx
    · subst hx
      have hz : countActive (CreateEvent s e).2 s.nextEventID = 0 :=
        countActive_eq_zero_of_fresh hs.regEvent
      show (countActive (CreateEvent s e).2 s.nextEventID : Int) ≤ e.Capacity
      rw [hz]
      simp only [Nat.cast_zero]
      omega
  unique := hs.unique

theorem eq_of_selectEvent {s : Store} (hs : WellFormed s) {x e : Event} (hx : x ∈ s.events)
    (he : selectEvent s x.ID = some e) : e = x := by
  have h := selectEvent_some_mem he
  exact List.inj_on_of_nodup_map hs.eventIDs h.1 hx h.2

theorem eq_of_selectRegistration {s : Store} (hs : WellFormed s) {r cur : Registration}
    (hr : r ∈ s.registrations) (hcur : selectRegistration s r.ID = some cur) : cur = r := by
  have h := selectRegistration_some_mem hcur
  exact List.inj_on_of_nodup_map hs.regIDs h.1 hr h.2

theorem WellFormed_admitted {s : Store} (hs : WellFormed s) (now : Nat) {reg : Registration}
    {e : Event} (he : selectEvent s reg.EventID = some e)
    (hroom : (countActive s reg.EventID : Int) < e.Capacity)
    (hnew : countExisting s reg.EventID reg.Email = 0) : WellFormed (admitted s now reg) where
  status := by
    intro r hr
    simp only [admitted, List.mem_append, List.mem_singleton] at hr
    rcases hr with hr | hr
    · exact hs.status r hr
    · subst hr
      exact Or.inl rfl
  regIDs := by
    simp only [admitted, List.map_append, List.map_cons, List.map_nil]
    refine List.Nodup.append hs.regIDs (List.nodup_singleton _) ?_
    simp only [List.disjoint_singleton, List.mem_map, not_exists, not_and]
    intro x hx hxe
    have := hs.regFresh x hx
    omega
  regFresh := by
    intro r hr
    simp only [admitted, List.mem_append, List.mem_singleton] at hr ⊢
    rcases hr with hr | hr
    · have := hs.regFresh r hr
      omega
    · subst hr
      simp
  eventIDs := hs.eventIDs
  eventFresh := hs.eventFresh
  regEvent := by
    intro r hr
    simp only [admitted, List.mem_append, List.mem_singleton] at hr ⊢
    rcases hr with hr | hr
    · exact hs.regEvent r hr
    · subst hr
      have h := selectEvent_some_mem he
      have := hs.eventFresh e h.1
      simp only
      omega
  capacity := by
    intro x hx
    show (countActive (admitted s now reg) x.ID : Int) ≤ x.Capacity
    rw [countActive_admitted]
    have hold : (countActive s x.ID : Int) ≤ x.Capacity := hs.capacity x hx
    by_cases h : reg.EventID = x.ID
    · rw [h] at he hroom
      have hxe := eq_of_selectEvent hs hx he
      subst hxe
      rw [if_pos h]
      push_cast
      omega
    · rw [if_neg h]
      simpa using hold
  unique := by
    intro eventID email
    show countExisting (admitted s now reg) eventID email ≤ 1
    rw [countExisting_admitted]
    have hold : countExisting s eventID email ≤ 1 := hs.unique eventID email
    by_cases h : reg.EventID = eventID ∧ reg.Email = email
    · rw [if_pos h, ← h.1, ← h.2, hnew]
    · rw [if_neg h]
      simpa using hold

theorem WellFormed_BookRegistrationTx {s : Store} (hs : WellFormed s) (now : Nat)
    (reg : Registration) : WellFormed (BookRegistrationTx s now reg).2 := by
  cases he : selectEvent s reg.EventID with
  | none =>
    have h : BookRegistrationTx s now reg = (.error .ErrEventNotFound, s) := by
      simp [BookRegistrationTx, he]
    rw [h]
    exact hs
  | some e =>
    by_cases hroom : (countActive s reg.EventID : Int) < e.Capacity
    · by_cases hnew : countExisting s reg.EventID reg.Email = 0
      · rw [BookRegistrationTx_admits now he hroom hnew]
        exact WellFormed_admitted hs now he hroom hnew
      · rw [BookRegistrationTx_duplicate now he hroom (Nat.pos_of_ne_zero hnew)]
        exact hs
    · rw [BookRegistrationTx_full now he (not_lt.mp hroom)]
      exact hs

theorem setStatusRow_EventID (now : Nat) (id : Int) (st : String) (r : Registration) :
    (setStatusRow now id st r).EventID = r.EventID := by
  unfold setStatusRow
  split <;> rfl

theorem setStatusRow_Email (now : Nat) (id : Int) (st : String) (r : Registration) :
    (setStatusRow now id st r).Email = r.Email := by
  unfold setStatusRow
  split <;> rfl

theorem setStatusRow_Status (now : Nat) (id : Int) (st : String) (r : Registration) :
    (setStatusRow now id st r).Status = if r.ID = id then st else r.Status := by
  unfold setStatusRow
  split <;> rfl

/-- A status update keeps the store well formed when it does not turn a registration that
is not counted (for the capacity, or as a duplicate) into one that is. -/
theorem WellFormed_setStatus {s : Store} (hs : WellFormed s) (now : Nat) (id : Int)
    (st : String) (hst : st = "pending" ∨ st = "confirmed" ∨ st = "canceled")
    (hactive : ∀ r ∈ s.registrations, ∀ eventID,
      isActiveFor eventID (setStatusRow now id st r) = true → isActiveFor eventID r = true)
    (hdup : ∀ r ∈ s.registrations, ∀ eventID email,
      isDuplicateFor eventID email (setStatusRow now id st r) = true →
        isDuplicateFor eventID email r = true) :
    WellFormed { s with registrations := s.registrations.map (setStatusRow now id st) } where
  status := by
    intro r hr
    simp only [List.mem_map] at hr
    obtain ⟨r₀, hr₀, rfl⟩ := hr
    rw [setStatusRow_Status]
    split
    · exact hst
    · exact hs.status r₀ hr₀
  regIDs := by
    have h : (s.registrations.map (setStatusRow now id st)).map (fun r => r.ID) =
        s.registrations.map (fun r => r.ID) := by
      rw [List.map_map]
      exact List.map_congr_left (fun r _ => setStatusRow_ID now id st r)
    show ((s.registrations.map (setStatusRow now id st)).map (fun r => r.ID)).Nodup
    rw [h]
    exact hs.regIDs
  regFresh := by
    intro r hr
    simp only [List.mem_map] at hr
    obtain ⟨r₀, hr₀, rfl⟩ := hr
    rw [setStatusRow_ID]
    exact hs.regFresh r₀ hr₀
  eventIDs := hs.eventIDs
  eventFresh := hs.eventFresh
  regEvent := by
    intro r hr
    simp only [List.mem_map] at hr
    obtain ⟨r₀, hr₀, rfl⟩ := hr
    rw [setStatusRow_EventID]
    exact hs.regEvent r₀ hr₀
  capacity := by
    intro x hx
    have hold : (countActive s x.ID : Int) ≤ x.Capacity := hs.capacity x hx
    have hle : (s.registrations.map (setStatusRow now id st)).countP (isActiveFor x.ID) ≤
        countActive s x.ID := by
      rw [List.countP_map]
      exact List.countP_mono_left (fun r hr h => hactive r hr x.ID h)
    show (((s.registrations.map (setStatusRow now id st)).countP (isActiveFor x.ID) : Nat) : Int)
      ≤ x.Capacity
    omega
  unique := by
    intro eventID email
    have hold : countExisting s eventID email ≤ 1 := hs.unique eventID email
    have hle : (s.registrations.map (setStatusRow now id st)).countP
        (isDuplicateFor eventID email) ≤ countExisting s eventID email := by
      rw [List.countP_map]
      exact List.countP_mono_left (fun r hr h => hdup r hr eventID email h)
    show (s.registrations.map (setStatusRow now id st)).countP (isDuplicateFor eventID email) ≤ 1
    omega

theorem WellFormed_CancelIfNotConfirmedTx {s : Store} (hs : WellFormed s) (now : Nat)
    (id : Int) : WellFormed (CancelIfNotConfirmedTx s now id).2 := by
  cases hcur : selectRegistration s id with
  | none =>
    simp only [CancelIfNotConfirmedTx, hcur]
    exact hs
  | some cur =>
    by_cases hst : cur.Status = "confirmed" ∨ cur.Status = "canceled"
    · rw [CancelIfNotConfirmedTx_terminal now hcur hst]
      exact hs
    · rw [CancelIfNotConfirmedTx_cancels now hcur hst]
      refine WellFormed_setStatus hs now id "canceled" (Or.inr (Or.inr rfl)) ?_ ?_
      · intro r _ eventID h
        by_cases hid : r.ID = id
        · simp [isActiveFor, setStatusRow, hid] at h
        · simpa [setStatusRow, hid] using h
      · intro r _ eventID email h
        by_cases hid : r.ID = id
        · simp [isDuplicateFor, setStatusRow, hid] at h
        · simpa [setStatusRow, hid] using h

theorem ConfirmCheck_ok_inv {s : Store} {eventID : Int} {req : ConfirmRegistrationRequest}
    {event : Event} {reg : Registration}
    (h : ConfirmCheck s eventID req = .ok (event, reg)) :
    selectEvent s eventID = some event ∧ selectRegistration s req.RegID = some reg ∧
      reg.Email = req.Email ∧ reg.Status ≠ "confirmed" ∧ reg.Status ≠ "canceled" := by
  unfold ConfirmCheck GetEventByID GetRegistrationByRegID at h
  cases he : selectEvent s eventID with
  | none => simp [he] at h
  | some e =>
    cases hr : selectRegistration s req.RegID with
    | none => simp [he, hr] at h
    | some r =>
      simp only [he, hr] at h
      split at h
      · simp at h
      · rename_i hemail
        split at h
        · simp at h
        · rename_i hconf
          split at h
          · simp at h
          · rename_i hcanc
            simp only [Except.ok.injEq, Prod.mk.injEq] at h
            obtain ⟨h1, h2⟩ := h
            subst h1 h2
            exact ⟨rfl, rfl, not_not.mp hemail, hconf, hcanc⟩

theorem WellFormed_Confirm {s : Store} (hs : WellFormed s) (now : Nat) (eventID : Int)
    (req : ConfirmRegistrationRequest) : WellFormed (Confirm s now eventID req).2 := by
  unfold Confirm
  cases hc : ConfirmCheck s eventID req with
  | error resp => exact hs
  | ok pr =>
    obtain ⟨event, reg⟩ := pr
    obtain ⟨-, hreg, -, hconf, hcanc⟩ := ConfirmCheck_ok_inv hc
    have hmem := selectRegistration_some_mem hreg
    have hpending : reg.Status = "pending" := by
      rcases hs.status reg hmem.1 with h | h | h
      · exact h
      · exact absurd h hconf
      · exact absurd h hcanc
    have hany := any_ID_of_selectRegistration (hmem.2 ▸ hreg : selectRegistration s reg.ID = some reg)
    simp only [ConfirmWrite, UpdateRegistrationStatusTx, hany, if_true]
    refine WellFormed_setStatus hs now reg.ID "confirmed" (Or.inr (Or.inl rfl)) ?_ ?_
    · intro r hr eventID h
      by_cases hid : r.ID = reg.ID
      · have hsel : selectRegistration s r.ID = some reg := by rw [hid, hmem.2]; exact hreg
        have hrr := eq_of_selectRegistration hs hr hsel
        subst hrr
        simp only [isActiveFor, setStatusRow_EventID] at h ⊢
        simp only [Bool.and_eq_true, decide_eq_true_eq] at h
        simp [h.1, hpending]
      · simpa [setStatusRow, hid] using h
    · intro r hr eventID email h
      by_cases hid : r.ID = reg.ID
      · have hsel : selectRegistration s r.ID = some reg := by rw [hid, hmem.2]; exact hreg
        have hrr := eq_of_selectRegistration hs hr hsel
        subst hrr
        simp only [isDuplicateFor, setStatusRow_EventID, setStatusRow_Email] at h ⊢
        simp only [Bool.and_eq_true, decide_eq_true_eq] at h
        simp [h.1.1, h.1.2, hpending]
      · simpa [setStatusRow, hid] using h

theorem WellFormed_atomicRun (steps : List AtomicStep) :
    ∀ s : Store, WellFormed s → (∀ st ∈ steps, st.capacityPositive) →
      WellFormed (atomicRun s steps) := by
  induction steps with
  | nil => intro s hs _; exact hs
  | cons st rest ih =>
    intro s hs hpos
    have hrest : ∀ st' ∈ rest, st'.capacityPositive :=
      fun st' h => hpos st' (List.mem_cons_of_mem _ h)
    have hst := hpos st (List.mem_cons_self _ _)
    show WellFormed (atomicRun (atomicStep s st) rest)
    refine ih _ ?_ hrest
    cases st with
    | createEvent e => exact WellFormed_CreateEvent hs e hst
    | book now reg => exact WellFormed_BookRegistrationTx hs now reg
    | cancel now id => exact WellFormed_CancelIfNotConfirmedTx hs now id
    | confirm now eventID req => exact WellFormed_Confirm hs now eventID req

/-- Both invariants of the data model hold in every store reached from the empty store by
event creations with a positive capacity, `BookRegistrationTx`, `CancelIfNotConfirmedTx`
and `Confirm` requests that are not interrupted. -/
theorem invariants_of_uninterrupted_executions (steps : List AtomicStep)
    (hpos : ∀ st ∈ steps, st.capacityPositive) :
    (∀ e ∈ (atomicRun Store.empty steps).events,
      capacityRespected (atomicRun Store.empty steps) e) ∧
    (∀ eventID email, uniqueActive (atomicRun Store.empty steps) eventID email) :=
  ⟨(WellFormed_atomicRun steps Store.empty WellFormed_empty hpos).capacity,
   (WellFormed_atomicRun steps Store.empty WellFormed_empty hpos).unique⟩

/-! ## Confirmation against expiration -/

theorem cancelRepeatedly_terminal {s : Store} {id : Int} {cur : Registration}
    (hcur : selectRegistration s id = some cur)
    (hst : cur.Status = "confirmed" ∨ cur.Status = "canceled") (nows : List Nat) :
    cancelRepeatedly s id nows = (List.replicate nows.length (.ok false), s) := by
  induction nows with
  | nil => rfl
  | cons now rest ih =>
    simp only [cancelRepeatedly, CancelIfNotConfirmedTx_terminal now hcur hst, ih,
      List.length_cons, List.replicate_succ]

theorem ConfirmWrite_ok_inv {s : Store} {now : Nat} {eventID : Int} {reg : Registration}
    {http : Nat} {data : RegistrationResponse} {s₁ : Store}
    (h : ConfirmWrite s now eventID reg = (.registration http data, s₁)) :
    s.registrations.any (fun r => decide (r.ID = reg.ID)) = true ∧
      s₁ = { s with registrations :=
               s.registrations.map (setStatusRow now reg.ID "confirmed") } ∧
      http = 200 ∧ data.EventID = eventID ∧ data.ID = reg.ID := by
  unfold ConfirmWrite UpdateRegistrationStatusTx at h
  by_cases hany : s.registrations.any (fun r => decide (r.ID = reg.ID)) = true
  · simp only [hany, if_true, Prod.mk.injEq, Response.registration.injEq] at h
    obtain ⟨⟨hhttp, hdata⟩, hs⟩ := h
    subst hdata
    exact ⟨hany, hs.symm, hhttp.symm, rfl, rfl⟩
  · simp [hany, InternalServerError] at h

theorem Confirm_ok_inv {s : Store} {now : Nat} {eventID : Int}
    {req : ConfirmRegistrationRequest} {http : Nat} {data : RegistrationResponse} {s₁ : Store}
    (h : Confirm s now eventID req = (.registration http data, s₁)) :
    ∃ event reg, ConfirmCheck s eventID req = .ok (event, reg) ∧
      ConfirmWrite s now eventID reg = (.registration http data, s₁) := by
  unfold Confirm at h
  cases hc : ConfirmCheck s eventID req with
  | error resp =>
    simp only [hc, Prod.mk.injEq] at h
    have hresp := h.1
    unfold ConfirmCheck at hc
    cases he : GetEventByID s eventID with
    | error x =>
      simp only [he, Except.error.injEq] at hc
      rw [← hc] at hresp
      simp [EventNotFoundError, BadResponseError] at hresp
    | ok e =>
      cases hr : GetRegistrationByRegID s req.RegID with
      | error x =>
        simp only [he, hr, Except.error.injEq] at hc
        rw [← hc] at hresp
        simp [BadResponseError] at hresp
      | ok r =>
        simp only [he, hr] at hc
        split at hc
        · simp only [Except.error.injEq] at hc
          rw [← hc] at hresp
          simp [BadResponseError] at hresp
        · split at hc
          · simp only [Except.error.injEq] at hc
            rw [← hc] at hresp
            simp [BadResponseError] at hresp
          · split at hc
            · simp only [Except.error.injEq] at hc
              rw [← hc] at hresp
              simp [BadResponseError] at hresp
            · simp at hc
  | ok pr =>
    obtain ⟨event, reg⟩ := pr
    simp only [hc] at h
    exact ⟨event, reg, rfl, h⟩

theorem selectRegistration_after_Confirm {s : Store} {now : Nat} {eventID : Int}
    {req : ConfirmRegistrationRequest} {http : Nat} {data : RegistrationResponse} {s₁ : Store}
    (h : Confirm s now eventID req = (.registration http data, s₁)) :
    ∃ cur, selectRegistration s₁ req.RegID = some cur ∧ cur.Status = "confirmed" ∧
      ∃ old, selectRegistration s req.RegID = some old ∧ cur.EventID = old.EventID := by
  obtain ⟨event, reg, hc, hw⟩ := Confirm_ok_inv h
  obtain ⟨-, hreg, -, -, -⟩ := ConfirmCheck_ok_inv hc
  obtain ⟨-, hs, -, -, -⟩ := ConfirmWrite_ok_inv hw
  have hid : reg.ID = req.RegID := (selectRegistration_some_mem hreg).2
  rw [hid] at hs
  subst hs
  refine ⟨setStatusRow now req.RegID "confirmed" reg, ?_, ?_, reg, hreg, ?_⟩
  · rw [selectRegistration_after_setStatus, hreg]
    rfl
  · simp [setStatusRow, hid]
  · simp [setStatusRow, hid]

/-- C11. Confirm-beats-expire: when `Confirm` has answered `200` for a registration (it
was pending: neither confirmed nor canceled), every later call of `CancelIfNotConfirmedTx`
for its id, however many there are, returns `false`; the store stays the one `Confirm`
left, so the registration is still confirmed and `CountRegistrations` of its event, as of
every event, has the value it had before the calls. -/
theorem confirm_beats_expire (s : Store) (now : Nat) (eventID : Int)
    (req : ConfirmRegistrationRequest) (data : RegistrationResponse) (s₁ : Store)
    (hconfirm : Confirm s now eventID req = (.registration 200 data, s₁))
    (nows : List Nat) :
    (∃ cur, selectRegistration s req.RegID = some cur ∧
      cur.Status ≠ "confirmed" ∧ cur.Status ≠ "canceled") ∧
    (cancelRepeatedly s₁ req.RegID nows).1 = List.replicate nows.length (.ok false) ∧
    (cancelRepeatedly s₁ req.RegID nows).2 = s₁ ∧
    statusOf (cancelRepeatedly s₁ req.RegID nows).2 req.RegID = some "confirmed" ∧
    ∀ event, CountRegistrations (cancelRepeatedly s₁ req.RegID nows).2 event =
      CountRegistrations s₁ event := by
  obtain ⟨cur₁, hsel, hst, -⟩ := selectRegistration_after_Confirm hconfirm
  obtain ⟨event, reg, hc, -⟩ := Confirm_ok_inv hconfirm
  obtain ⟨-, hreg, -, hconf, hcanc⟩ := ConfirmCheck_ok_inv hc
  rw [cancelRepeatedly_terminal hsel (Or.inl hst) nows]
  refine ⟨⟨reg, hreg, hconf, hcanc⟩, rfl, rfl, ?_, fun _ => rfl⟩
  simp [statusOf, hsel, hst]

/-- C11 on the scenario of the specification: X holds the only seat of event 1 and
confirms; the expiration instruction is then delivered three times.  Each call returns
`false`, X is still confirmed, and the seat count stays 1. -/
theorem confirm_beats_expire_witness :
    (cancelRepeatedly (Confirm (storeWithStatus "pending") 15 1 (sampleConfirm 1 "x@mail.io")).2
        1 [20, 21, 22]).1 = [.ok false, .ok false, .ok false] ∧
    statusOf (cancelRepeatedly
        (Confirm (storeWithStatus "pending") 15 1 (sampleConfirm 1 "x@mail.io")).2
        1 [20, 21, 22]).2 1 = some "confirmed" ∧
    CountRegistrations (cancelRepeatedly
        (Confirm (storeWithStatus "pending") 15 1 (sampleConfirm 1 "x@mail.io")).2
        1 [20, 21, 22]).2 1 = 1 :=
  have h := confirm_beats_expire (storeWithStatus "pending") 15 1 (sampleConfirm 1 "x@mail.io")
    { ID := 1, EventID := 1, FullName := "Attendee", Email := "x@mail.io", CreatedAt := 0,
      Status := "confirmed", UpdatedAt := 15 }
    (Confirm (storeWithStatus "pending") 15 1 (sampleConfirm 1 "x@mail.io")).2
    (by decide) [20, 21, 22]
  ⟨h.2.1, h.2.2.2.1, (h.2.2.2.2 1).trans (by decide)⟩

theorem ConfirmCheck_rejects {s : Store} {eventID : Int} {req : ConfirmRegistrationRequest}
    {resp : Response} (h : ConfirmCheck s eventID req = .error resp) (now : Nat) :
    Confirm s now eventID req = (resp, s) := by
  simp [Confirm, h]

theorem CancelIfNotConfirmedTx_true_inv {s : Store} {now : Nat} {id : Int} {s₁ : Store}
    (h : CancelIfNotConfirmedTx s now id = (.ok true, s₁)) :
    ∃ cur, selectRegistration s id = some cur ∧
      s₁ = { s with registrations := s.registrations.map (setStatusRow now id "canceled") } := by
  cases hcur : selectRegistration s id with
  | none => simp [CancelIfNotConfirmedTx, hcur] at h
  | some cur =>
    by_cases hst : cur.Status = "confirmed" ∨ cur.Status = "canceled"
    · rw [CancelIfNotConfirmedTx_terminal now hcur hst] at h
      simp at h
    · rw [CancelIfNotConfirmedTx_cancels now hcur hst] at h
      simp only [Prod.mk.injEq, true_and] at h
      exact ⟨cur, rfl, h.symm⟩

/-- C12. Expire-beats-confirm: when `CancelIfNotConfirmedTx` has returned `true` for a
registration, a `Confirm` request started afterwards with an existing event id and the
email of the registration is rejected by the status check with the `Registration was
canceled` error; the handler stops at its checks, so `UpdateRegistrationStatusTx` is not
called, the store is unchanged and the registration is still canceled. -/
theorem expire_beats_confirm (s : Store) (now : Nat) (id : Int) (cur : Registration)
    (s₁ : Store) (hcur : selectRegistration s id = some cur)
    (hcancel : CancelIfNotConfirmedTx s now id = (.ok true, s₁))
    (now₂ : Nat) (eventID : Int) (req : ConfirmRegistrationRequest) (e : Event)
    (hevent : selectEvent s₁ eventID = some e)
    (hid : req.RegID = id) (hemail : req.Email = cur.Email) :
    ConfirmCheck s₁ eventID req =
      .error (BadResponseError FieldIncorrect "Registration was canceled") ∧
    Confirm s₁ now₂ eventID req =
      (BadResponseError FieldIncorrect "Registration was canceled", s₁) ∧
    statusOf (Confirm s₁ now₂ eventID req).2 id = some "canceled" := by
  obtain ⟨cur', hcur', hs⟩ := CancelIfNotConfirmedTx_true_inv hcancel
  rw [hcur] at hcur'
  cases hcur'
  have hcid : cur.ID = id := (selectRegistration_some_mem hcur).2
  have hsel : selectRegistration s₁ req.RegID = some (setStatusRow now id "canceled" cur) := by
    rw [hs, hid, selectRegistration_after_setStatus, hcur]
    rfl
  have hcheck : ConfirmCheck s₁ eventID req =
      .error (BadResponseError FieldIncorrect "Registration was canceled") := by
    simp [ConfirmCheck, GetEventByID, GetRegistrationByRegID, hevent, hsel, setStatusRow,
      hcid, hemail]
  have hconfirm := ConfirmCheck_rejects hcheck now₂
  refine ⟨hcheck, hconfirm, ?_⟩
  rw [hconfirm, ← hid]
  simp [statusOf, hsel, setStatusRow, hcid]

/-- C12 on registration 1 of event 1: the expiration cancels it, and the confirmation
that comes after is answered `400`, `FIELD_INCORRECT`, `Registration was canceled`. -/
theorem expire_beats_confirm_witness :
    Confirm (CancelIfNotConfirmedTx (storeWithStatus "pending") 20 1).2 25 1
        (sampleConfirm 1 "x@mail.io") =
      (.failure 400 "FIELD_INCORRECT" "Registration was canceled",
       (CancelIfNotConfirmedTx (storeWithStatus "pending") 20 1).2) :=
  (expire_beats_confirm (storeWithStatus "pending") 20 1 (sampleRow "pending")
    (CancelIfNotConfirmedTx (storeWithStatus "pending") 20 1).2 (by decide) (by decide)
    25 1 (sampleConfirm 1 "x@mail.io") { sampleEvent 1 with ID := 1 } (by decide) rfl rfl).2.1

/-- C13. Answer of `Confirm` to an unknown registration id.  When the event exists and no
stored registration has the id of the request, `Confirm` answers `400` with the code
`FIELD_INCORRECT` and the description `Registration not found`, and leaves the store
unchanged.  The answer is not the one of `RegistrationNotFoundError`, whose code is
`REGISTRATION_NOT_FOUND`. -/
theorem Confirm_unknown_registration (s : Store) (now : Nat) (eventID : Int)
    (req : ConfirmRegistrationRequest) (e : Event)
    (hevent : selectEvent s eventID = some e)
    (hnone : ∀ r ∈ s.registrations, r.ID ≠ req.RegID) :
    Confirm s now eventID req = (.failure 400 "FIELD_INCORRECT" "Registration not found", s) ∧
    (Confirm s now eventID req).1 ≠ RegistrationNotFoundError := by
  have hsel : selectRegistration s req.RegID = none := by
    simp only [selectRegistration, List.find?_eq_none, decide_eq_true_eq]
    exact hnone
  have hcheck : ConfirmCheck s eventID req =
      .error (BadResponseError FieldIncorrect "Registration not found") := by
    simp [ConfirmCheck, GetEventByID, GetRegistrationByRegID, hevent, hsel]
  rw [ConfirmCheck_rejects hcheck now]
  refine ⟨rfl, ?_⟩
  simp [BadResponseError, RegistrationNotFoundError, FieldIncorrect, RegistrationNotFound]

/-- C13 on event 1 and registration 7, which does not exist: the answer carries the code
`FIELD_INCORRECT`, whereas `RegistrationNotFoundError` is the answer with the code
`REGISTRATION_NOT_FOUND`. -/
theorem Confirm_unknown_registration_witness :
    Confirm (storeWithStatus "pending") 15 1 unknownConfirm =
      (.failure 400 "FIELD_INCORRECT" "Registration not found", storeWithStatus "pending") ∧
    RegistrationNotFoundError = .failure 400 "REGISTRATION_NOT_FOUND" "Registration not found" :=
  ⟨(Confirm_unknown_registration (storeWithStatus "pending") 15 1 unknownConfirm
      { sampleEvent 1 with ID := 1 } (by decide) (by decide)).1, rfl⟩

/-- C14, as the code decides it.  When the event of the request exists and the email of
the request differs from the stored email of the addressed registration, `Confirm` answers
`400` with the code `FIELD_INCORRECT` (`Wrong email for this registration`) whatever the
status of the registration; the handler stops at its checks, so
`UpdateRegistrationStatusTx` is not called, the store is unchanged and so is the status. -/
theorem Confirm_wrong_email (s : Store) (now : Nat) (eventID : Int)
    (req : ConfirmRegistrationRequest) (e : Event) (cur : Registration)
    (hevent : selectEvent s eventID = some e)
    (hcur : selectRegistration s req.RegID = some cur)
    (hemail : req.Email ≠ cur.Email) :
    ConfirmCheck s eventID req =
      .error (.failure 400 "FIELD_INCORRECT" "Wrong email for this registration") ∧
    Confirm s now eventID req =
      (.failure 400 "FIELD_INCORRECT" "Wrong email for this registration", s) ∧
    statusOf (Confirm s now eventID req).2 req.RegID = some cur.Status := by
  have hcheck : ConfirmCheck s eventID req =
      .error (.failure 400 "FIELD_INCORRECT" "Wrong email for this registration") := by
    simp [ConfirmCheck, GetEventByID, GetRegistrationByRegID, hevent, hcur, Ne.symm hemail,
      BadResponseError, FieldIncorrect]
  have hconfirm := ConfirmCheck_rejects hcheck now
  refine ⟨hcheck, hconfirm, ?_⟩
  rw [hconfirm]
  simp [statusOf, hcur]

/-- C14 on a canceled registration: a request with another email is answered
`FIELD_INCORRECT`, `Wrong email for this registration`, not `Registration was canceled`. -/
theorem Confirm_wrong_email_witness :
    Confirm (storeWithStatus "canceled") 15 1 (sampleConfirm 1 "y@mail.io") =
      (.failure 400 "FIELD_INCORRECT" "Wrong email for this registration",
       storeWithStatus "canceled") :=
  (Confirm_wrong_email (storeWithStatus "canceled") 15 1 (sampleConfirm 1 "y@mail.io")
    { sampleEvent 1 with ID := 1 } (sampleRow "canceled") (by decide) (by decide)
    (by decide)).2.1

/-- C14, when the event of the request does not exist: the request for event 9 with a
wrong email for registration 1 is answered with the code `EVENT_NOT_FOUND`, not
`FIELD_INCORRECT`. -/
theorem Confirm_wrong_email_unknown_event :
    selectRegistration (storeWithStatus "pending") 1 = some (sampleRow "pending") ∧
    (sampleRow "pending").Email ≠ "y@mail.io" ∧
    Confirm (storeWithStatus "pending") 15 9 (sampleConfirm 1 "y@mail.io") =
      (.failure 400 "EVENT_NOT_FOUND" "Event not found", storeWithStatus "pending") := by
  decide

/-! ## Booking workflow (`Book`) -/

theorem BookRegistrationTx_error_store {s : Store} {now : Nat} {reg : Registration}
    {err : RepoError} {s₁ : Store} (h : BookRegistrationTx s now reg = (.error err, s₁)) :
    s₁ = s := by
  cases he : selectEvent s reg.EventID with
  | none =>
    have hb : BookRegistrationTx s now reg = (.error .ErrEventNotFound, s) := by
      simp [BookRegistrationTx, he]
    rw [hb] at h
    exact (Prod.mk.inj h).2.symm
  | some e =>
    by_cases hroom : (countActive s reg.EventID : Int) < e.Capacity
    · by_cases hnew : countExisting s reg.EventID reg.Email = 0
      · rw [BookRegistrationTx_admits now he hroom hnew] at h
        simp at h
      · rw [BookRegistrationTx_duplicate now he hroom (Nat.pos_of_ne_zero hnew)] at h
        exact (Prod.mk.inj h).2.symm
    · rw [BookRegistrationTx_full now he (not_lt.mp hroom)] at h
      exact (Prod.mk.inj h).2.symm

theorem Book_of_error {s : Store} {now : Nat} {eventID : Int}
    {req : CreateRegistrationRequest} {err : RepoError} {s₁ : Store}
    (h : BookRegistrationTx s now (bookingOf eventID req) = (.error err, s₁))
    (faults : BookFaults) :
    (Book s now eventID req faults).store = s₁ ∧
    (Book s now eventID req faults).calls = [.BookRegistrationTx (bookingOf eventID req)] := by
  unfold Book
  rw [h]
  cases err <;> exact ⟨rfl, rfl⟩

theorem Book_of_admitted {s : Store} {now : Nat} {eventID : Int}
    {req : CreateRegistrationRequest} {id timeout : Int} {s₁ : Store}
    (h : BookRegistrationTx s now (bookingOf eventID req) = (.ok (id, timeout), s₁))
    (faults : BookFaults) :
    (Book s now eventID req faults).store = s₁ ∧
    publishedDelays (Book s now eventID req faults).calls =
      [(Publish { RegistrationID := id, EventID := eventID, ExpireAt := 0 }
          (wrap64 (timeout * 60))).xDelay] ∧
    (faults.eventReadFails = true → (Book s now eventID req faults).outcome = .panicked) ∧
    (faults.eventReadFails = false →
      (Book s now eventID req faults).outcome =
        .responded (.registration 201
          { ID := id, EventID := eventID, FullName := req.FullName, Email := req.Email,
            CreatedAt := now, Status := "pending", UpdatedAt := 0 })) := by
  obtain ⟨e, he, -, -, -, -, hs⟩ := BookRegistrationTx_ok_inv h
  have hev : GetEventByID s₁ eventID = .ok e := by
    have : selectEvent s₁ eventID = some e := by rw [hs]; exact he
    simp [GetEventByID, this]
  unfold Book
  rw [h]
  cases hf : faults.eventReadFails
  · simp [hf, hev, publishedDelays, Publish]
  · simp [hf, publishedDelays, Publish]

/-- C15. Best-effort scheduling.  Whether `Publish` fails or succeeds, `Book` leaves the
same store, ends the same way and makes the same calls.  When the admission succeeds, the
store `Book` leaves is the one of `BookRegistrationTx`, with the inserted registration,
and the answer is `201` with the pending registration (the event read that follows not
failing).  When the admission fails, `BookRegistrationTx` is the only call `Book` makes:
`Publish` is not called. -/
theorem Book_publish_best_effort (s : Store) (now : Nat) (eventID : Int)
    (req : CreateRegistrationRequest) (faults : BookFaults) :
    ((Book s now eventID req { faults with publishFails := true }).store =
        (Book s now eventID req { faults with publishFails := false }).store ∧
      (Book s now eventID req { faults with publishFails := true }).outcome =
        (Book s now eventID req { faults with publishFails := false }).outcome ∧
      (Book s now eventID req { faults with publishFails := true }).calls =
        (Book s now eventID req { faults with publishFails := false }).calls) ∧
    (∀ id timeout s₁,
      BookRegistrationTx s now (bookingOf eventID req) = (.ok (id, timeout), s₁) →
        (Book s now eventID req faults).store = s₁ ∧
        (faults.eventReadFails = false →
          (Book s now eventID req faults).outcome =
            .responded (.registration 201
              { ID := id, EventID := eventID, FullName := req.FullName, Email := req.Email,
                CreatedAt := now, Status := "pending", UpdatedAt := 0 }))) ∧
    (∀ err s₁,
      BookRegistrationTx s now (bookingOf eventID req) = (.error err, s₁) →
        (Book s now eventID req faults).store = s ∧
        ∀ p, Call.Publish p ∉ (Book s now eventID req faults).calls) := by
  refine ⟨?_, fun id timeout s₁ h => ?_, fun err s₁ h => ?_⟩
  · unfold Book
    rcases hb : BookRegistrationTx s now (bookingOf eventID req) with ⟨res, s₁⟩
    cases res with
    | error err => cases err <;> exact ⟨rfl, rfl, rfl⟩
    | ok pr =>
      obtain ⟨id, timeout⟩ := pr
      simp only
      generalize (if faults.eventReadFails = true then
        (Except.error RepoError.ErrEventNotFound : Except RepoError Event)
        else GetEventByID s₁ eventID) = read
      cases read <;> exact ⟨rfl, rfl, rfl⟩
  · have hb := Book_of_admitted h faults
    exact ⟨hb.1, hb.2.2.2⟩
  · have hb := Book_of_error h faults
    have hs : s₁ = s := BookRegistrationTx_error_store h
    refine ⟨hb.1.trans hs, fun p hp => ?_⟩
    rw [hb.2] at hp
    simp at hp

/-- C15 on the first booking of event 1 while the broker refuses the message: the failure
is logged, the answer is `201` with the pending registration, and registration 1 is in the
store, pending. -/
theorem Book_publish_best_effort_witness :
    (Book (storeWithCapacity 1) 10 1 sampleBooking
        { noBookFaults with publishFails := true }).logs =
      ["failed to publish cancel message to RabbitMQ"] ∧
    (Book (storeWithCapacity 1) 10 1 sampleBooking
        { noBookFaults with publishFails := true }).outcome =
      .responded (.registration 201
        { ID := 1, EventID := 1, FullName := "Attendee", Email := "x@mail.io",
          CreatedAt := 10, Status := "pending", UpdatedAt := 0 }) ∧
    statusOf (Book (storeWithCapacity 1) 10 1 sampleBooking
        { noBookFaults with publishFails := true }).store 1 = some "pending" :=
  have h := ((Book_publish_best_effort (storeWithCapacity 1) 10 1 sampleBooking
    { noBookFaults with publishFails := true }).2.1 1 5
    (admitted (storeWithCapacity 1) 10 (bookingOf 1 sampleBooking)) (by decide))
  ⟨by decide, h.2 rfl, by rw [h.1]; decide⟩

/-! ## Delay of the expiration instruction -/

theorem wrap64_of_range {x : Int} (hlo : -(2 ^ 63) ≤ x) (hhi : x < 2 ^ 63) : wrap64 x = x := by
  unfold wrap64
  rw [Int.emod_eq_of_lt (by omega) (by omega)]
  omega

theorem toInt32_of_range {x : Int} (hlo : -(2 ^ 31) ≤ x) (hhi : x < 2 ^ 31) :
    toInt32 x = x := by
  unfold toInt32
  rw [Int.emod_eq_of_lt (by omega) (by omega)]
  omega

/-- Up to 35791 minutes the delay published is the timeout in milliseconds. -/
theorem xDelay_exact_of_le (message : RegistrationOperateMessage) (t : Int)
    (hlo : 1 ≤ t) (hhi : t ≤ 35791) :
    (Publish message (wrap64 (t * 60))).xDelay = some (t * 60 * 1000) := by
  have h60 : wrap64 (t * 60) = t * 60 := wrap64_of_range (by omega) (by omega)
  have h1000 : wrap64 (t * 60 * 1000) = t * 60 * 1000 := wrap64_of_range (by omega) (by omega)
  have h32 : toInt32 (t * 60 * 1000) = t * 60 * 1000 := toInt32_of_range (by omega) (by omega)
  have hpos : t * 60 > 0 := by omega
  simp [Publish, h60, h1000, h32, hpos]

/-- C16. A payment timeout for which the delay published is not the timeout.  For event 1
with a timeout of 35792 minutes the admission succeeds and returns that timeout; `Book`
computes `delaySeconds = 2147520` and `Publish` sets `x-delay` to `-2147447296`, whereas
the timeout is `35792 * 60 * 1000 = 2147520000` milliseconds. -/
theorem xDelay_overflows_int32 :
    (BookRegistrationTx (storeWithTimeout 35792) 10 (bookingOf 1 sampleBooking)).1 =
      .ok (1, 35792) ∧
    publishedDelays (Book (storeWithTimeout 35792) 10 1 sampleBooking noBookFaults).calls =
      [some (-2147447296)] ∧
    (35792 : Int) * 60 * 1000 = 2147520000 ∧
    publishedDelays (Book (storeWithTimeout 35791) 10 1 sampleBooking noBookFaults).calls =
      [some 2147460000] := by
  decide

/-! ## Notification context -/

/-- C19. What `Book` does when the event read that follows a successful admission fails:
`GetEventByID` returns a nil event with its error, the error is logged, and the next
statement evaluates `event.Name`; the handler panics and writes no `201` response.  The
registration stays in the store. -/
theorem Book_panics_without_event (s : Store) (now : Nat) (eventID : Int)
    (req : CreateRegistrationRequest) (faults : BookFaults) (id timeout : Int) (s₁ : Store)
    (hbooked : BookRegistrationTx s now (bookingOf eventID req) = (.ok (id, timeout), s₁))
    (hfail : faults.eventReadFails = true) :
    (Book s now eventID req faults).outcome = .panicked ∧
    (∀ resp, (Book s now eventID req faults).outcome ≠ .responded resp) ∧
    (Book s now eventID req faults).store = s₁ := by
  have hb := Book_of_admitted hbooked faults
  have hp := hb.2.2.1 hfail
  refine ⟨hp, fun resp h => ?_, hb.1⟩
  rw [hp] at h
  cases h

/-- C19 on the first booking of event 1 when the event read fails: the handler panics
after it has logged the read error, and registration 1 is in the store, pending. -/
theorem Book_panics_without_event_witness :
    (Book (storeWithCapacity 1) 10 1 sampleBooking
        { noBookFaults with eventReadFails := true }).outcome = .panicked ∧
    (Book (storeWithCapacity 1) 10 1 sampleBooking
        { noBookFaults with eventReadFails := true }).logs =
      ["Failed to get event from DB in worker"] ∧
    statusOf (Book (storeWithCapacity 1) 10 1 sampleBooking
        { noBookFaults with eventReadFails := true }).store 1 = some "pending" :=
  have h := Book_panics_without_event (storeWithCapacity 1) 10 1 sampleBooking
    { noBookFaults with eventReadFails := true } 1 5
    (admitted (storeWithCapacity 1) 10 (bookingOf 1 sampleBooking)) (by decide) rfl
  ⟨h.1, by decide, by rw [h.2.2]; decide⟩

/-! ## Expiration worker -/

theorem handler_of_undecodable {Body : Type} {decode : Body → Option RegistrationOperateMessage}
    {body : Body} (hdecode : decode body = none) (faults : WorkerFaults) (s : Store)
    (now : Nat) :
    handler decode faults s now body =
      { err := some "unmarshal", store := s, calls := [],
        logs := ["Failed to unmarshal message"] } := by
  simp [handler, hdecode]

/-- C17, as the code decides it.  For a body that does not decode, the handler makes no
call at all, so no store operation, leaves the store unchanged and returns the decode
error; `Consume` then settles the delivery with `Nack(false, true)`: the delivery is put
back on the queue. -/
theorem undecodable_is_requeued {Body : Type}
    (decode : Body → Option RegistrationOperateMessage) (faults : WorkerFaults) (s : Store)
    (now : Nat) (body : Body) (hdecode : decode body = none) :
    (handler decode faults s now body).err ≠ none ∧
    (handler decode faults s now body).calls = [] ∧
    (handler decode faults s now body).store = s ∧
    (Consume decode faults s now body).1 = .Nack false true ∧
    (Consume decode faults s now body).1.requeued = true := by
  have hh := handler_of_undecodable hdecode faults s now
  have hsettle : (Consume decode faults s now body).1 = .Nack false true := by
    unfold Consume
    rw [hh]
    rfl
  refine ⟨?_, ?_, ?_, hsettle, ?_⟩
  · rw [hh]
    simp
  · rw [hh]
  · rw [hh]
  · rw [hsettle]
    rfl

/-- C17 on a decoder that accepts nothing: the delivery is settled with
`Nack(false, true)`. -/
theorem undecodable_is_requeued_witness :
    (Consume rejectAll noWorkerFaults (storeWithStatus "pending") 20 "not json").1 =
      .Nack false true :=
  (undecodable_is_requeued rejectAll noWorkerFaults (storeWithStatus "pending") 20 "not json"
    rfl).2.2.2.1

/-- C17, against the claim: the body `not json` does not decode, and the delivery is
negatively acknowledged with requeue, so it goes back to the queue; the store is
untouched. -/
theorem undecodable_goes_back_to_queue :
    rejectAll "not json" = none ∧
    (Consume rejectAll noWorkerFaults (storeWithStatus "pending") 20 "not json").1.requeued =
      true ∧
    (Consume rejectAll noWorkerFaults (storeWithStatus "pending") 20 "not json").2.store =
      storeWithStatus "pending" := by
  decide

/-- C18. Acknowledgment rule of the worker for a body that decodes.  The handler returns
an error, and `Consume` settles the delivery with `Nack(false, true)`, exactly when the
cancellation transaction returned an error.  When the transaction returns `false` the
handler returns nil and the transaction is the only call it made.  When it returns `true`
the handler returns nil and the delivery is acknowledged, whichever of the registration
read, the event read and the e-mail fails. -/
theorem handler_acknowledgment {Body : Type}
    (decode : Body → Option RegistrationOperateMessage) (faults : WorkerFaults) (s : Store)
    (now : Nat) (body : Body) (msg : RegistrationOperateMessage)
    (hdecode : decode body = some msg) :
    ((handler decode faults s now body).err ≠ none ↔
      ∃ err, (cancelTx faults s now msg.RegistrationID).1 = .error err) ∧
    ((Consume decode faults s now body).1 = .Nack false true ↔
      ∃ err, (cancelTx faults s now msg.RegistrationID).1 = .error err) ∧
    ((cancelTx faults s now msg.RegistrationID).1 = .ok false →
      (handler decode faults s now body).err = none ∧
      (handler decode faults s now body).calls =
        [.CancelIfNotConfirmedTx msg.RegistrationID]) ∧
    ((cancelTx faults s now msg.RegistrationID).1 = .ok true →
      (handler decode faults s now body).err = none ∧
      (Consume decode faults s now body).1 = .Ack false) := by
  unfold Consume handler
  simp only [hdecode]
  rcases hc : cancelTx faults s now msg.RegistrationID with ⟨res, s₁⟩
  cases res with
  | error err => simp [settle]
  | ok canceled =>
    cases canceled with
    | false => simp [settle]
    | true =>
      simp only
      generalize (if faults.registrationReadFails = true then
        (Except.error (RepoError.wrapped "registration not found") : Except RepoError Registration)
        else GetRegistrationByID s₁ msg.RegistrationID) = regRead
      cases regRead with
      | error x => simp [settle]
      | ok reg =>
        simp only
        generalize (if faults.eventReadFails = true then
          (Except.error RepoError.ErrEventNotFound : Except RepoError Event)
          else GetEventByID s₁ reg.EventID) = eventRead
        cases eventRead <;> simp [settle]

/-- C18 on registration 1 of event 1.  While it is pending and the mail server refuses the
notification, the delivery is acknowledged; once it is confirmed, the cancellation
transaction is the only call of the handler. -/
theorem handler_acknowledgment_witness :
    (Consume acceptAll { noWorkerFaults with mailFails := true } (storeWithStatus "pending") 20
        "instruction").1 = .Ack false ∧
    (handler acceptAll noWorkerFaults (storeWithStatus "confirmed") 20 "instruction").calls =
      [.CancelIfNotConfirmedTx 1] :=
  ⟨((handler_acknowledgment acceptAll { noWorkerFaults with mailFails := true }
      (storeWithStatus "pending") 20 "instruction"
      { RegistrationID := 1, EventID := 1, ExpireAt := 0 } rfl).2.2.2 (by decide)).2,
   ((handler_acknowledgment acceptAll noWorkerFaults (storeWithStatus "confirmed") 20
      "instruction" { RegistrationID := 1, EventID := 1, ExpireAt := 0 } rfl).2.2.1
      (by decide)).2⟩

/-! ## Seat accounting -/

theorem StatusesKnown_setStatus {s : Store} (hs : StatusesKnown s) (now : Nat) (id : Int)
    (st : String) (hst : st = "pending" ∨ st = "confirmed" ∨ st = "canceled") :
    StatusesKnown { s with registrations := s.registrations.map (setStatusRow now id st) } := by
  intro r hr
  simp only [List.mem_map] at hr
  obtain ⟨r₀, hr₀, rfl⟩ := hr
  rw [setStatusRow_Status]
  split
  · exact hst
  · exact hs r₀ hr₀

theorem StatusesKnown_BookRegistrationTx {s : Store} (hs : StatusesKnown s) (now : Nat)
    (reg : Registration) : StatusesKnown (BookRegistrationTx s now reg).2 := by
  rcases hb : BookRegistrationTx s now reg with ⟨res, s₁⟩
  cases res with
  | error err =>
    rw [BookRegistrationTx_error_store hb]
    exact hs
  | ok pr =>
    obtain ⟨id, timeout⟩ := pr
    obtain ⟨-, -, -, -, -, -, hs₁⟩ := BookRegistrationTx_ok_inv hb
    subst hs₁
    intro r hr
    simp only [admitted, List.mem_append, List.mem_singleton] at hr
    rcases hr with hr | hr
    · exact hs r hr
    · subst hr
      exact Or.inl rfl

theorem StatusesKnown_CancelIfNotConfirmedTx {s : Store} (hs : StatusesKnown s) (now : Nat)
    (id : Int) : StatusesKnown (CancelIfNotConfirmedTx s now id).2 := by
  cases hcur : selectRegistration s id with
  | none =>
    simp only [CancelIfNotConfirmedTx, hcur]
    exact hs
  | some cur =>
    by_cases hst : cur.Status = "confirmed" ∨ cur.Status = "canceled"
    · rw [CancelIfNotConfirmedTx_terminal now hcur hst]
      exact hs
    · rw [CancelIfNotConfirmedTx_cancels now hcur hst]
      exact StatusesKnown_setStatus hs now id "canceled" (Or.inr (Or.inr rfl))

theorem StatusesKnown_ConfirmWrite {s : Store} (hs : StatusesKnown s) (now : Nat)
    (eventID : Int) (reg : Registration) : StatusesKnown (ConfirmWrite s now eventID reg).2 := by
  unfold ConfirmWrite UpdateRegistrationStatusTx
  by_cases hany : s.registrations.any (fun r => decide (r.ID = reg.ID)) = true
  · simp only [hany, if_true]
    exact StatusesKnown_setStatus hs now reg.ID "confirmed" (Or.inr (Or.inl rfl))
  · simp only [hany]
    exact hs

theorem StatusesKnown_step {σ : Sys} (hs : StatusesKnown σ.store) (st : Step) :
    StatusesKnown (step σ st).store := by
  cases st with
  | createEvent e => exact hs
  | book now reg => exact StatusesKnown_BookRegistrationTx hs now reg
  | cancel now id => exact StatusesKnown_CancelIfNotConfirmedTx hs now id
  | confirmRead eventID req =>
    simp only [step]
    split <;> exact hs
  | confirmWrite now i =>
    simp only [step]
    split
    · exact hs
    · exact StatusesKnown_ConfirmWrite hs now _ _

theorem StatusesKnown_run (steps : List Step) :
    ∀ σ : Sys, StatusesKnown σ.store → StatusesKnown (run σ steps).store := by
  induction steps with
  | nil => intro σ hs; exact hs
  | cons st rest ih =>
    intro σ hs
    exact ih (step σ st) (StatusesKnown_step hs st)

theorem isNotCanceledFor_eq_isActiveFor {r : Registration}
    (h : r.Status = "pending" ∨ r.Status = "confirmed" ∨ r.Status = "canceled")
    (eventID : Int) : isNotCanceledFor eventID r = isActiveFor eventID r := by
  unfold isNotCanceledFor isActiveFor
  rcases h with h | h | h <;> simp [h]

/-- C20. Seat accounting is consistent.  In every store reached from the empty store by
event creations, `BookRegistrationTx`, `CancelIfNotConfirmedTx` and the two halves of
`Confirm` in any order, and for every event id: `CountRegistrations` is the number of
pending or confirmed registrations of the event, the count `BookRegistrationTx` compares
with the capacity; `GetRegistrationsByEventID` returns exactly those registrations; and
the `AvailableSeats` of a `GetInfo` answer is the capacity minus that number. -/
theorem seat_accounting_consistent (steps : List Step) (eventID : Int) :
    CountRegistrations (run Sys.init steps).store eventID =
      (countActive (run Sys.init steps).store eventID : Int) ∧
    GetRegistrationsByEventID (run Sys.init steps).store eventID =
      (run Sys.init steps).store.registrations.filter (isActiveFor eventID) ∧
    ∀ isAdmin info, GetInfo (run Sys.init steps).store eventID isAdmin = .ok info →
      ∃ e, selectEvent (run Sys.init steps).store eventID = some e ∧
        info.Capacity = e.Capacity ∧
        info.AvailableSeats =
          e.Capacity - (countActive (run Sys.init steps).store eventID : Int) := by
  have hknown : StatusesKnown (run Sys.init steps).store :=
    StatusesKnown_run steps Sys.init (by simp [StatusesKnown, Sys.init, Store.empty])
  have hcount : CountRegistrations (run Sys.init steps).store eventID =
      (countActive (run Sys.init steps).store eventID : Int) := by
    unfold CountRegistrations countActive
    congr 1
    exact List.countP_congr (fun r hr => by
      rw [isNotCanceledFor_eq_isActiveFor (hknown r hr)])
  refine ⟨hcount, ?_, ?_⟩
  · unfold GetRegistrationsByEventID
    exact List.filter_congr (fun r hr => isNotCanceledFor_eq_isActiveFor (hknown r hr) eventID)
  · intro isAdmin info hinfo
    unfold GetInfo GetEventByID at hinfo
    cases he : selectEvent (run Sys.init steps).store eventID with
    | none => simp [he] at hinfo
    | some e =>
      simp only [he, Except.ok.injEq] at hinfo
      subst hinfo
      exact ⟨e, rfl, rfl, by simp only [hcount]⟩

/-- C20 on the round trip of the specification: after X has booked the only seat of
event 1 and confirmed, `GetInfo` reports capacity 1 and no available seat, and the admin
view lists X's confirmed registration. -/
theorem seat_accounting_consistent_witness :
    (GetInfo (run Sys.init
        [.createEvent (sampleEvent 1), .book 10 (sampleRequest "x@mail.io"),
         .confirmRead 1 (sampleConfirm 1 "x@mail.io"), .confirmWrite 15 0]).store 1 true).map
      (fun info => (info.Capacity, info.AvailableSeats,
        info.Registrations.map (fun r => (r.ID, r.Status)))) =
      .ok (1, 0, [(1, "confirmed")]) ∧
    CountRegistrations (run Sys.init
        [.createEvent (sampleEvent 1), .book 10 (sampleRequest "x@mail.io"),
         .confirmRead 1 (sampleConfirm 1 "x@mail.io"), .confirmWrite 15 0]).store 1 =
      (countActive (run Sys.init
        [.createEvent (sampleEvent 1), .book 10 (sampleRequest "x@mail.io"),
         .confirmRead 1 (sampleConfirm 1 "x@mail.io"), .confirmWrite 15 0]).store 1 : Int) :=
  ⟨by rfl,
   (seat_accounting_consistent
     [.createEvent (sampleEvent 1), .book 10 (sampleRequest "x@mail.io"),
      .confirmRead 1 (sampleConfirm 1 "x@mail.io"), .confirmWrite 15 0] 1).1⟩

/-! ## Event of a confirmation -/

theorem ConfirmCheck_accepts {s : Store} {eventID : Int} {req : ConfirmRegistrationRequest}
    {e : Event} {cur : Registration}
    (hevent : selectEvent s eventID = some e)
    (hcur : selectRegistration s req.RegID = some cur)
    (hemail : req.Email = cur.Email)
    (hconf : cur.Status ≠ "confirmed") (hcanc : cur.Status ≠ "canceled") :
    ConfirmCheck s eventID req = .ok (e, cur) := by
  simp [ConfirmCheck, GetEventByID, GetRegistrationByRegID, hevent, hcur, hemail, hconf, hcanc]

/-- C21. `Confirm` does not compare the event of the request with the event of the
registration.  For a pending registration `cur`, a request that carries its id and its
stored email and is addressed to any existing event, the registration's own or another,
is answered `200`; the response reports the event id of the request; the registration is
confirmed, and its row still carries its own event id. -/
theorem Confirm_ignores_event_ownership (s : Store) (now : Nat) (eventID : Int)
    (req : ConfirmRegistrationRequest) (e : Event) (cur : Registration)
    (hevent : selectEvent s eventID = some e)
    (hcur : selectRegistration s req.RegID = some cur)
    (hpending : cur.Status = "pending")
    (hemail : req.Email = cur.Email) :
    (Confirm s now eventID req).1 =
      .registration 200
        { ID := cur.ID, EventID := eventID, FullName := cur.FullName, Email := cur.Email,
          CreatedAt := 0, Status := "confirmed", UpdatedAt := now } ∧
    statusOf (Confirm s now eventID req).2 req.RegID = some "confirmed" ∧
    (selectRegistration (Confirm s now eventID req).2 req.RegID).map (fun r => r.EventID) =
      some cur.EventID := by
  have hconf : cur.Status ≠ "confirmed" := by rw [hpending]; decide
  have hcanc : cur.Status ≠ "canceled" := by rw [hpending]; decide
  have hcheck := ConfirmCheck_accepts hevent hcur hemail hconf hcanc
  have hid : cur.ID = req.RegID := (selectRegistration_some_mem hcur).2
  have hany : s.registrations.any (fun r => decide (r.ID = req.RegID)) = true :=
    any_ID_of_selectRegistration hcur
  have hrun : Confirm s now eventID req =
      (.registration 200
        { ID := cur.ID, EventID := eventID, FullName := cur.FullName, Email := cur.Email,
          CreatedAt := 0, Status := "confirmed", UpdatedAt := now },
       { s with registrations :=
           s.registrations.map (setStatusRow now req.RegID "confirmed") }) := by
    simp only [Confirm, hcheck, ConfirmWrite, UpdateRegistrationStatusTx, hid, hany, if_true]
  rw [hrun]
  refine ⟨rfl, ?_, ?_⟩
  · simp [statusOf, selectRegistration_after_setStatus, hcur, setStatusRow, hid]
  · simp [selectRegistration_after_setStatus, hcur, setStatusRow_EventID]

/-- C21 on registration 1, which belongs to event 1, confirmed through event 2: the
answer is `200` with event id 2, the registration is confirmed, and its row still carries
event id 1. -/
theorem Confirm_ignores_event_ownership_witness :
    (sampleRow "pending").EventID = 1 ∧
    (Confirm storeWithTwoEvents 15 2 (sampleConfirm 1 "x@mail.io")).1 =
      .registration 200
        { ID := 1, EventID := 2, FullName := "Attendee", Email := "x@mail.io",
          CreatedAt := 0, Status := "confirmed", UpdatedAt := 15 } ∧
    statusOf (Confirm storeWithTwoEvents 15 2 (sampleConfirm 1 "x@mail.io")).2 1 =
      some "confirmed" ∧
    (selectRegistration (Confirm storeWithTwoEvents 15 2 (sampleConfirm 1 "x@mail.io")).2
        1).map (fun r => r.EventID) = some 1 :=
  ⟨rfl,
   Confirm_ignores_event_ownership storeWithTwoEvents 15 2 (sampleConfirm 1 "x@mail.io")
     { sampleEvent 1 with ID := 2, Name := "other" } (sampleRow "pending")
     (by decide) (by decide) (by decide) (by decide)⟩

end EventBooker
